import Mathlib

/-!
Verification of the rtcan-bb C_CAN driver core (src/rtcan_c_can.c) against its
natural-language specification.

The development shallow-embeds the driver's pure register computations
(frame codec, bit-timing packing) as Lean functions on `Nat` (machine words are
naturals; 16/32-bit truncation is written out explicitly where the C code
performs it), and the stateful routines (message-object pool scan, transmit
drain, state-change handling, interrupt dispatch) as functions on an explicit
device-state record `Dev`.  Register names, constants and control flow follow
the C source line by line.
-/

/-! ## Bit-manipulation toolkit -/

/-- Disjoint bitwise-or is addition: or-ing a value below `2^k` with a value
shifted left by `k` adds them. -/
theorem lor_shl_add {a : Nat} (b k : Nat) (h : a < 2 ^ k) :
    a ||| (b <<< k) = a + 2 ^ k * b := by
  apply Nat.eq_of_testBit_eq
  intro i
  rw [Nat.add_comm, Nat.testBit_mul_pow_two_add b h i,
    Nat.testBit_lor, Nat.testBit_shiftLeft]
  by_cases hik : i < k
  · have hge : ¬ (i ≥ k) := by omega
    simp [hik, hge]
  · have hk : k ≤ i := by omega
    have ha : a.testBit i = false :=
      Nat.testBit_eq_false_of_lt
        (lt_of_lt_of_le h (Nat.pow_le_pow_right (by norm_num) hk))
    simp [ha, hik, hk]

/-- Masking with a shifted mask then shifting right equals shifting right then
masking. -/
theorem and_shl_shr (a m k : Nat) : (a &&& (m <<< k)) >>> k = (a >>> k) &&& m := by
  apply Nat.eq_of_testBit_eq
  intro i
  rw [Nat.testBit_shiftRight, Nat.testBit_land, Nat.testBit_land,
    Nat.testBit_shiftRight, Nat.testBit_shiftLeft]
  have h1 : k + i ≥ k := by omega
  have h2 : k + i - k = i := by omega
  simp [h1, h2]

/-- A single-bit mask test, failing case. -/
theorem and_two_pow_eq_zero {a : Nat} (k : Nat) (h : a / 2 ^ k % 2 = 0) :
    a &&& 2 ^ k = 0 := by
  have hb : a.testBit k = false := by
    simp [Nat.testBit_to_div_mod, h]
  rw [Nat.and_two_pow, hb]
  simp

/-- A single-bit mask test, succeeding case. -/
theorem and_two_pow_eq_self {a : Nat} (k : Nat) (h : a / 2 ^ k % 2 = 1) :
    a &&& 2 ^ k = 2 ^ k := by
  have hb : a.testBit k = true := by
    simp [Nat.testBit_to_div_mod, h]
  rw [Nat.and_two_pow, hb]
  simp

/-! ## Constants from the C source and the CAN frame header -/

/-- CAN_EFF_FLAG (extended-frame flag, bit 31 of `can_id`; linux/can.h). -/
def CAN_EFF_FLAG : Nat := 0x80000000

/-- CAN_RTR_FLAG (remote-request flag, bit 30 of `can_id`; linux/can.h). -/
def CAN_RTR_FLAG : Nat := 0x40000000

/-- CAN_SFF_MASK (11-bit standard identifier mask; linux/can.h). -/
def CAN_SFF_MASK : Nat := 0x7FF

/-- CAN_EFF_MASK (29-bit extended identifier mask; linux/can.h). -/
def CAN_EFF_MASK : Nat := 0x1FFFFFFF

/-- CAN_MAX_DLC. -/
def CAN_MAX_DLC : Nat := 8

/-- IFx arbitration bits. -/
def IF_ARB_MSGVAL : Nat := 0x8000

def IF_ARB_MSGXTD : Nat := 0x4000

def IF_ARB_TRANSMIT : Nat := 0x2000

/-- IFx message-control bits. -/
def IF_MCONT_NEWDAT : Nat := 0x8000

def IF_MCONT_MSGLST : Nat := 0x4000

def IF_MCONT_INTPND : Nat := 0x2000

def IF_MCONT_UMASK : Nat := 0x1000

def IF_MCONT_TXIE : Nat := 0x800

def IF_MCONT_RXIE : Nat := 0x400

def IF_MCONT_TXRQST : Nat := 0x100

def IF_MCONT_EOB : Nat := 0x80

def IF_MCONT_DLC_MASK : Nat := 0xF

/-! ## Frame codec (c_can_write_msg_object / c_can_read_msg_object) -/

/-- A generic CAN frame as the driver sees it: `can_id` is the 32-bit
identifier-plus-flags word, `can_dlc` the data length code, `data` the 8-byte
payload array (modeled as a function on byte indices). -/
structure can_frame where
  can_id : Nat
  can_dlc : Nat
  data : Nat → Nat

/-- The message-object register fields written by `c_can_write_msg_object` and
read back by `c_can_read_msg_object`: two 16-bit arbitration registers, the
message-control register, and the data registers (16-bit word `j` holds payload
bytes `2j` and `2j+1`). -/
structure MsgObjRegs where
  arb1 : Nat
  arb2 : Nat
  mctrl : Nat
  dataWord : Nat → Nat

/-- Field computation of `c_can_write_msg_object` (rtcan_c_can.c:518-552):
transmit-direction bit set unless the frame is remote-request; extended flag
and 29-bit id, or 11-bit id shifted into the upper bits; message-valid always;
data bytes packed two per 16-bit register little-endian; control carries
TXIE | TXRQST | EOB | dlc. -/
def c_can_write_msg_object (frame : can_frame) : MsgObjRegs :=
  let flags0 := if frame.can_id &&& CAN_RTR_FLAG = 0 then IF_ARB_TRANSMIT else 0
  let id := if frame.can_id &&& CAN_EFF_FLAG ≠ 0 then frame.can_id &&& CAN_EFF_MASK
            else (frame.can_id &&& CAN_SFF_MASK) <<< 18
  let flags1 := if frame.can_id &&& CAN_EFF_FLAG ≠ 0 then flags0 ||| IF_ARB_MSGXTD
                else flags0
  let flags := flags1 ||| IF_ARB_MSGVAL
  { arb1 := id &&& 0xFFFF
    arb2 := flags ||| ((id &&& 0xFFFF0000) >>> 16)
    mctrl := IF_MCONT_TXIE ||| IF_MCONT_TXRQST ||| IF_MCONT_EOB ||| frame.can_dlc
    dataWord := fun j => frame.data (2 * j) ||| (frame.data (2 * j + 1) <<< 8) }

/-- Reconstruction of `c_can_read_msg_object` (rtcan_c_can.c:616-648): dlc from
the low 4 control bits capped at 8; identifier from the arbitration registers;
the TRANSMIT direction bit maps directly to the remote-request flag; payload
words are read back only when that bit is clear (byte values are truncated to
8 bits as by the `u8` assignments; unread payload bytes are left zero). -/
def c_can_read_msg_object (regs : MsgObjRegs) : can_frame :=
  let dlc := min (regs.mctrl &&& IF_MCONT_DLC_MASK) CAN_MAX_DLC
  let flags := regs.arb2
  let val := regs.arb1 ||| (flags <<< 16)
  let base := if flags &&& IF_ARB_MSGXTD ≠ 0 then (val &&& CAN_EFF_MASK) ||| CAN_EFF_FLAG
              else (val >>> 18) &&& CAN_SFF_MASK
  if flags &&& IF_ARB_TRANSMIT ≠ 0 then
    { can_id := base ||| CAN_RTR_FLAG, can_dlc := dlc, data := fun _ => 0 }
  else
    { can_id := base, can_dlc := dlc
      data := fun i =>
        if i / 2 * 2 < dlc then
          if i % 2 = 0 then regs.dataWord (i / 2) % 256
          else (regs.dataWord (i / 2) >>> 8) % 256
        else 0 }

/-- Encoding a frame into message-object registers and decoding them back. -/
def c_can_msg_roundtrip (frame : can_frame) : can_frame :=
  c_can_read_msg_object (c_can_write_msg_object frame)

/-- A concrete standard data frame: id 0x123, two payload bytes. -/
def frameEx : can_frame :=
  { can_id := 0x123, can_dlc := 2
    data := fun i => if i = 0 then 0xAB else if i = 1 then 0xCD else 0 }

/-- C1 counterexample: decode∘encode is NOT the identity.  The standard data
frame with id 0x123 and payload [0xAB, 0xCD] comes back as a remote-request
frame (`can_id` has gained CAN_RTR_FLAG) with its payload dropped, because
`c_can_read_msg_object` maps a SET transmit-direction bit to the RTR flag while
`c_can_write_msg_object` SETS that bit exactly for non-RTR frames. -/
theorem C1_counterexample :
    (c_can_msg_roundtrip frameEx).can_id = 0x40000123 ∧
    frameEx.can_id = 0x123 ∧
    (c_can_msg_roundtrip frameEx).can_id ≠ frameEx.can_id ∧
    (c_can_msg_roundtrip frameEx).data 0 = 0 ∧
    frameEx.data 0 = 0xAB := by
  refine ⟨?_, rfl, by decide, ?_, rfl⟩ <;> rfl

/-! ### C1: the codec round trip -/

lemma write_eff_data (ident dlc : Nat) (data : Nat → Nat)
    (hid : ident < 2 ^ 29) :
    c_can_write_msg_object ⟨ident + 0x80000000, dlc, data⟩ =
      ⟨ident &&& 0xFFFF, 0xE000 ||| ((ident &&& 0xFFFF0000) >>> 16), 0x980 ||| dlc,
        fun j => data (2 * j) ||| (data (2 * j + 1) <<< 8)⟩ := by
  have h30 : (ident + 0x80000000) &&& CAN_RTR_FLAG = 0 := by
    rw [CAN_RTR_FLAG, (show (0x40000000:Nat) = 2^30 by norm_num)]
    exact and_two_pow_eq_zero 30 (by omega)
  have h31 : (ident + 0x80000000) &&& CAN_EFF_FLAG = 2^31 := by
    rw [CAN_EFF_FLAG, (show (0x80000000:Nat) = 2^31 by norm_num)]
    exact and_two_pow_eq_self 31 (by omega)
  have hmask : (ident + 0x80000000) &&& CAN_EFF_MASK = ident := by
    rw [CAN_EFF_MASK, (show (0x1FFFFFFF:Nat) = 2^29 - 1 by norm_num),
      Nat.and_pow_two_sub_one_eq_mod]
    omega
  have hpow : ((2:Nat)^31 ≠ 0) := by norm_num
  simp only [c_can_write_msg_object, h30, h31, hmask, if_true, ne_eq, hpow,
    not_false_eq_true, if_pos,
    (show (IF_ARB_TRANSMIT ||| IF_ARB_MSGXTD ||| IF_ARB_MSGVAL : Nat) = 0xE000 from by decide),
    (show (IF_MCONT_TXIE ||| IF_MCONT_TXRQST ||| IF_MCONT_EOB : Nat) = 0x980 from by decide)]

lemma read_eff_data (ident dlc : Nat) (w : Nat → Nat)
    (hid : ident < 2 ^ 29) (hdlc : dlc ≤ 8) :
    c_can_read_msg_object ⟨ident &&& 0xFFFF, 0xE000 ||| ((ident &&& 0xFFFF0000) >>> 16),
        0x980 ||| dlc, w⟩ =
      ⟨ident + 0x80000000 + 0x40000000, dlc, fun _ => 0⟩ := by
  have hhigh : (ident &&& 0xFFFF0000) >>> 16 = ident / 65536 := by
    rw [(show (0xFFFF0000:Nat) = 0xFFFF <<< 16 by decide), and_shl_shr,
      Nat.shiftRight_eq_div_pow, (show (0xFFFF:Nat) = 2^16 - 1 by norm_num),
      Nat.and_pow_two_sub_one_eq_mod]
    omega
  have hlow : ident &&& 0xFFFF = ident % 65536 := by
    rw [(show (0xFFFF:Nat) = 2^16 - 1 by norm_num), Nat.and_pow_two_sub_one_eq_mod]
  have harb2 : (0xE000:Nat) ||| (ident / 65536) = ident / 65536 + 2 ^ 13 * 7 := by
    rw [Nat.lor_comm, (show (0xE000:Nat) = 7 <<< 13 by decide),
      lor_shl_add 7 13 (by omega)]
  have hxtd : (ident / 65536 + 2 ^ 13 * 7) &&& IF_ARB_MSGXTD = 2^14 := by
    rw [IF_ARB_MSGXTD, (show (0x4000:Nat) = 2^14 by norm_num)]
    exact and_two_pow_eq_self 14 (by omega)
  have htrans : (ident / 65536 + 2 ^ 13 * 7) &&& IF_ARB_TRANSMIT = 2^13 := by
    rw [IF_ARB_TRANSMIT, (show (0x2000:Nat) = 2^13 by norm_num)]
    exact and_two_pow_eq_self 13 (by omega)
  have hval : (ident % 65536) ||| ((ident / 65536 + 2 ^ 13 * 7) <<< 16) = ident + 3758096384 := by
    rw [lor_shl_add _ 16 (by omega)]
    omega
  have hvm : (ident + 3758096384) &&& CAN_EFF_MASK = ident := by
    rw [CAN_EFF_MASK, (show (0x1FFFFFFF:Nat) = 2^29 - 1 by norm_num),
      Nat.and_pow_two_sub_one_eq_mod]
    omega
  have hdlcv : ((0x980:Nat) ||| dlc) &&& IF_MCONT_DLC_MASK = dlc := by
    rw [Nat.lor_comm, (show (0x980:Nat) = 0x13 <<< 7 by decide),
      lor_shl_add 0x13 7 (by omega), IF_MCONT_DLC_MASK,
      (show (0xF:Nat) = 2^4 - 1 by norm_num), Nat.and_pow_two_sub_one_eq_mod]
    omega
  have hfin : ((ident ||| CAN_EFF_FLAG) ||| CAN_RTR_FLAG) = ident + 0x80000000 + 0x40000000 := by
    rw [CAN_EFF_FLAG, CAN_RTR_FLAG, Nat.lor_assoc,
      (show ((0x80000000:Nat) ||| 0x40000000) = 3 <<< 30 by decide),
      lor_shl_add 3 30 (by omega)]
    omega
  simp only [c_can_read_msg_object, hhigh, hlow, harb2, hxtd, htrans, hval, hvm, hdlcv,
    CAN_MAX_DLC]
  simp only [(show ((2:Nat)^14 ≠ 0) by norm_num), (show ((2:Nat)^13 ≠ 0) by norm_num),
    ne_eq, not_false_eq_true, if_pos, if_true]
  rw [hfin]
  simp [Nat.min_eq_left hdlc]


lemma write_eff_rtr (ident dlc : Nat) (data : Nat → Nat)
    (hid : ident < 2 ^ 29) :
    c_can_write_msg_object ⟨ident + 0x80000000 + 0x40000000, dlc, data⟩ =
      ⟨ident &&& 0xFFFF, 0xC000 ||| ((ident &&& 0xFFFF0000) >>> 16), 0x980 ||| dlc,
        fun j => data (2 * j) ||| (data (2 * j + 1) <<< 8)⟩ := by
  have h30 : (ident + 0x80000000 + 0x40000000) &&& CAN_RTR_FLAG = 2^30 := by
    rw [CAN_RTR_FLAG, (show (0x40000000:Nat) = 2^30 by norm_num)]
    exact and_two_pow_eq_self 30 (by omega)
  have h31 : (ident + 0x80000000 + 0x40000000) &&& CAN_EFF_FLAG = 2^31 := by
    rw [CAN_EFF_FLAG, (show (0x80000000:Nat) = 2^31 by norm_num)]
    exact and_two_pow_eq_self 31 (by omega)
  have hmask : (ident + 0x80000000 + 0x40000000) &&& CAN_EFF_MASK = ident := by
    rw [CAN_EFF_MASK, (show (0x1FFFFFFF:Nat) = 2^29 - 1 by norm_num),
      Nat.and_pow_two_sub_one_eq_mod]
    omega
  have hpow : ((2:Nat)^31 ≠ 0) := by norm_num
  have hpow30 : ((2:Nat)^30 ≠ 0) := by norm_num
  simp only [c_can_write_msg_object, h30, h31, hmask, if_true, ne_eq, hpow, hpow30,
    not_false_eq_true, if_pos, if_neg,
    (show ((0:Nat) ||| IF_ARB_MSGXTD ||| IF_ARB_MSGVAL) = 0xC000 from by decide),
    (show (IF_MCONT_TXIE ||| IF_MCONT_TXRQST ||| IF_MCONT_EOB : Nat) = 0x980 from by decide)]

lemma read_eff_rtr (ident dlc : Nat) (w : Nat → Nat)
    (hid : ident < 2 ^ 29) (hdlc : dlc ≤ 8) :
    c_can_read_msg_object ⟨ident &&& 0xFFFF, 0xC000 ||| ((ident &&& 0xFFFF0000) >>> 16),
        0x980 ||| dlc, w⟩ =
      ⟨ident + 0x80000000, dlc,
        fun i =>
          if i / 2 * 2 < dlc then
            if i % 2 = 0 then w (i / 2) % 256
            else (w (i / 2) >>> 8) % 256
          else 0⟩ := by
  have hhigh : (ident &&& 0xFFFF0000) >>> 16 = ident / 65536 := by
    rw [(show (0xFFFF0000:Nat) = 0xFFFF <<< 16 by decide), and_shl_shr,
      Nat.shiftRight_eq_div_pow, (show (0xFFFF:Nat) = 2^16 - 1 by norm_num),
      Nat.and_pow_two_sub_one_eq_mod]
    omega
  have hlow : ident &&& 0xFFFF = ident % 65536 := by
    rw [(show (0xFFFF:Nat) = 2^16 - 1 by norm_num), Nat.and_pow_two_sub_one_eq_mod]
  have harb2 : (0xC000:Nat) ||| (ident / 65536) = ident / 65536 + 2 ^ 13 * 6 := by
    rw [Nat.lor_comm, (show (0xC000:Nat) = 6 <<< 13 by decide),
      lor_shl_add 6 13 (by omega)]
  have hxtd : (ident / 65536 + 2 ^ 13 * 6) &&& IF_ARB_MSGXTD = 2^14 := by
    rw [IF_ARB_MSGXTD, (show (0x4000:Nat) = 2^14 by norm_num)]
    exact and_two_pow_eq_self 14 (by omega)
  have htrans : (ident / 65536 + 2 ^ 13 * 6) &&& IF_ARB_TRANSMIT = 0 := by
    rw [IF_ARB_TRANSMIT, (show (0x2000:Nat) = 2^13 by norm_num)]
    exact and_two_pow_eq_zero 13 (by omega)
  have hval : (ident % 65536) ||| ((ident / 65536 + 2 ^ 13 * 6) <<< 16) = ident + 3221225472 := by
    rw [lor_shl_add _ 16 (by omega)]
    omega
  have hvm : (ident + 3221225472) &&& CAN_EFF_MASK = ident := by
    rw [CAN_EFF_MASK, (show (0x1FFFFFFF:Nat) = 2^29 - 1 by norm_num),
      Nat.and_pow_two_sub_one_eq_mod]
    omega
  have hdlcv : ((0x980:Nat) ||| dlc) &&& IF_MCONT_DLC_MASK = dlc := by
    rw [Nat.lor_comm, (show (0x980:Nat) = 0x13 <<< 7 by decide),
      lor_shl_add 0x13 7 (by omega), IF_MCONT_DLC_MASK,
      (show (0xF:Nat) = 2^4 - 1 by norm_num), Nat.and_pow_two_sub_one_eq_mod]
    omega
  have hfin : (ident ||| CAN_EFF_FLAG) = ident + 0x80000000 := by
    rw [CAN_EFF_FLAG, (show ((0x80000000:Nat)) = 1 <<< 31 by decide),
      lor_shl_add 1 31 (by omega)]
    omega
  simp only [c_can_read_msg_object, hhigh, hlow, harb2, hxtd, htrans, hval, hvm, hdlcv,
    CAN_MAX_DLC]
  simp only [(show ((2:Nat)^14 ≠ 0) by norm_num), ne_eq, not_false_eq_true, if_pos,
    not_true_eq_false, if_neg, if_false]
  rw [hfin]
  simp [Nat.min_eq_left hdlc]

lemma write_std_data (ident dlc : Nat) (data : Nat → Nat)
    (hid : ident < 2 ^ 11) :
    c_can_write_msg_object ⟨ident, dlc, data⟩ =
      ⟨0, 0xA000 ||| (4 * ident), 0x980 ||| dlc,
        fun j => data (2 * j) ||| (data (2 * j + 1) <<< 8)⟩ := by
  have h30 : ident &&& CAN_RTR_FLAG = 0 := by
    rw [CAN_RTR_FLAG, (show (0x40000000:Nat) = 2^30 by norm_num)]
    exact and_two_pow_eq_zero 30 (by omega)
  have h31 : ident &&& CAN_EFF_FLAG = 0 := by
    rw [CAN_EFF_FLAG, (show (0x80000000:Nat) = 2^31 by norm_num)]
    exact and_two_pow_eq_zero 31 (by omega)
  have hsff : ident &&& CAN_SFF_MASK = ident := by
    rw [CAN_SFF_MASK, (show (0x7FF:Nat) = 2^11 - 1 by norm_num),
      Nat.and_pow_two_sub_one_eq_mod]
    omega
  have hlow0 : (ident <<< 18) &&& 0xFFFF = 0 := by
    rw [Nat.shiftLeft_eq, (show (0xFFFF:Nat) = 2^16 - 1 by norm_num),
      Nat.and_pow_two_sub_one_eq_mod]
    omega
  have hhigh4 : ((ident <<< 18) &&& 0xFFFF0000) >>> 16 = 4 * ident := by
    rw [(show (0xFFFF0000:Nat) = 0xFFFF <<< 16 by decide), and_shl_shr,
      Nat.shiftLeft_eq, Nat.shiftRight_eq_div_pow, (show (0xFFFF:Nat) = 2^16 - 1 by norm_num),
      Nat.and_pow_two_sub_one_eq_mod]
    omega
  simp only [c_can_write_msg_object, h30, h31, hsff, hlow0, hhigh4, if_true, ne_eq,
    not_true_eq_false, if_neg, if_false,
    (show (IF_ARB_TRANSMIT ||| IF_ARB_MSGVAL : Nat) = 0xA000 from by decide),
    (show (IF_MCONT_TXIE ||| IF_MCONT_TXRQST ||| IF_MCONT_EOB : Nat) = 0x980 from by decide)]

lemma read_std_data (ident dlc : Nat) (w : Nat → Nat)
    (hid : ident < 2 ^ 11) (hdlc : dlc ≤ 8) :
    c_can_read_msg_object ⟨0, 0xA000 ||| (4 * ident), 0x980 ||| dlc, w⟩ =
      ⟨ident + 0x40000000, dlc, fun _ => 0⟩ := by
  have harb2 : (0xA000:Nat) ||| (4 * ident) = 4 * ident + 2 ^ 13 * 5 := by
    rw [Nat.lor_comm, (show (0xA000:Nat) = 5 <<< 13 by decide),
      lor_shl_add 5 13 (by omega)]
  have hxtd : (4 * ident + 2 ^ 13 * 5) &&& IF_ARB_MSGXTD = 0 := by
    rw [IF_ARB_MSGXTD, (show (0x4000:Nat) = 2^14 by norm_num)]
    exact and_two_pow_eq_zero 14 (by omega)
  have htrans : (4 * ident + 2 ^ 13 * 5) &&& IF_ARB_TRANSMIT = 2^13 := by
    rw [IF_ARB_TRANSMIT, (show (0x2000:Nat) = 2^13 by norm_num)]
    exact and_two_pow_eq_self 13 (by omega)
  have hbase : (((0:Nat) ||| ((4 * ident + 2 ^ 13 * 5) <<< 16)) >>> 18) &&& CAN_SFF_MASK = ident := by
    rw [(show ∀ n : Nat, 0 ||| n = n from fun n => Nat.zero_or n), Nat.shiftLeft_eq, Nat.shiftRight_eq_div_pow, CAN_SFF_MASK,
      (show (0x7FF:Nat) = 2^11 - 1 by norm_num), Nat.and_pow_two_sub_one_eq_mod]
    omega
  have hdlcv : ((0x980:Nat) ||| dlc) &&& IF_MCONT_DLC_MASK = dlc := by
    rw [Nat.lor_comm, (show (0x980:Nat) = 0x13 <<< 7 by decide),
      lor_shl_add 0x13 7 (by omega), IF_MCONT_DLC_MASK,
      (show (0xF:Nat) = 2^4 - 1 by norm_num), Nat.and_pow_two_sub_one_eq_mod]
    omega
  have hfin : (ident ||| CAN_RTR_FLAG) = ident + 0x40000000 := by
    rw [CAN_RTR_FLAG, (show ((0x40000000:Nat)) = 1 <<< 30 by decide),
      lor_shl_add 1 30 (by omega)]
    omega
  simp only [c_can_read_msg_object, harb2, hxtd, htrans, hbase, hdlcv, CAN_MAX_DLC]
  simp only [(show ((2:Nat)^13 ≠ 0) by norm_num), ne_eq, not_false_eq_true, if_pos,
    not_true_eq_false, if_neg, if_false]
  rw [hfin]
  simp [Nat.min_eq_left hdlc]

lemma write_std_rtr (ident dlc : Nat) (data : Nat → Nat)
    (hid : ident < 2 ^ 11) :
    c_can_write_msg_object ⟨ident + 0x40000000, dlc, data⟩ =
      ⟨0, 0x8000 ||| (4 * ident), 0x980 ||| dlc,
        fun j => data (2 * j) ||| (data (2 * j + 1) <<< 8)⟩ := by
  have h30 : (ident + 0x40000000) &&& CAN_RTR_FLAG = 2^30 := by
    rw [CAN_RTR_FLAG, (show (0x40000000:Nat) = 2^30 by norm_num)]
    exact and_two_pow_eq_self 30 (by omega)
  have h31 : (ident + 0x40000000) &&& CAN_EFF_FLAG = 0 := by
    rw [CAN_EFF_FLAG, (show (0x80000000:Nat) = 2^31 by norm_num)]
    exact and_two_pow_eq_zero 31 (by omega)
  have hsff : (ident + 0x40000000) &&& CAN_SFF_MASK = ident := by
    rw [CAN_SFF_MASK, (show (0x7FF:Nat) = 2^11 - 1 by norm_num),
      Nat.and_pow_two_sub_one_eq_mod]
    omega
  have hlow0 : (ident <<< 18) &&& 0xFFFF = 0 := by
    rw [Nat.shiftLeft_eq, (show (0xFFFF:Nat) = 2^16 - 1 by norm_num),
      Nat.and_pow_two_sub_one_eq_mod]
    omega
  have hhigh4 : ((ident <<< 18) &&& 0xFFFF0000) >>> 16 = 4 * ident := by
    rw [(show (0xFFFF0000:Nat) = 0xFFFF <<< 16 by decide), and_shl_shr,
      Nat.shiftLeft_eq, Nat.shiftRight_eq_div_pow, (show (0xFFFF:Nat) = 2^16 - 1 by norm_num),
      Nat.and_pow_two_sub_one_eq_mod]
    omega
  have hpow30 : ((2:Nat)^30 ≠ 0) := by norm_num
  simp only [c_can_write_msg_object, h30, h31, hsff, hlow0, hhigh4, if_true, ne_eq,
    hpow30, not_true_eq_false, if_neg, if_false,
    (show ((0:Nat) ||| IF_ARB_MSGVAL) = 0x8000 from by decide),
    (show (IF_MCONT_TXIE ||| IF_MCONT_TXRQST ||| IF_MCONT_EOB : Nat) = 0x980 from by decide)]

lemma read_std_rtr (ident dlc : Nat) (w : Nat → Nat)
    (hid : ident < 2 ^ 11) (hdlc : dlc ≤ 8) :
    c_can_read_msg_object ⟨0, 0x8000 ||| (4 * ident), 0x980 ||| dlc, w⟩ =
      ⟨ident, dlc,
        fun i =>
          if i / 2 * 2 < dlc then
            if i % 2 = 0 then w (i / 2) % 256
            else (w (i / 2) >>> 8) % 256
          else 0⟩ := by
  have harb2 : (0x8000:Nat) ||| (4 * ident) = 4 * ident + 2 ^ 13 * 4 := by
    rw [Nat.lor_comm, (show (0x8000:Nat) = 4 <<< 13 by decide),
      lor_shl_add 4 13 (by omega)]
  have hxtd : (4 * ident + 2 ^ 13 * 4) &&& IF_ARB_MSGXTD = 0 := by
    rw [IF_ARB_MSGXTD, (show (0x4000:Nat) = 2^14 by norm_num)]
    exact and_two_pow_eq_zero 14 (by omega)
  have htrans : (4 * ident + 2 ^ 13 * 4) &&& IF_ARB_TRANSMIT = 0 := by
    rw [IF_ARB_TRANSMIT, (show (0x2000:Nat) = 2^13 by norm_num)]
    exact and_two_pow_eq_zero 13 (by omega)
  have hbase : (((0:Nat) ||| ((4 * ident + 2 ^ 13 * 4) <<< 16)) >>> 18) &&& CAN_SFF_MASK = ident := by
    rw [(show ∀ n : Nat, 0 ||| n = n from fun n => Nat.zero_or n), Nat.shiftLeft_eq, Nat.shiftRight_eq_div_pow, CAN_SFF_MASK,
      (show (0x7FF:Nat) = 2^11 - 1 by norm_num), Nat.and_pow_two_sub_one_eq_mod]
    omega
  have hdlcv : ((0x980:Nat) ||| dlc) &&& IF_MCONT_DLC_MASK = dlc := by
    rw [Nat.lor_comm, (show (0x980:Nat) = 0x13 <<< 7 by decide),
      lor_shl_add 0x13 7 (by omega), IF_MCONT_DLC_MASK,
      (show (0xF:Nat) = 2^4 - 1 by norm_num), Nat.and_pow_two_sub_one_eq_mod]
    omega
  simp only [c_can_read_msg_object, harb2, hxtd, htrans, hbase, hdlcv, CAN_MAX_DLC]
  simp only [ne_eq, not_true_eq_false, if_neg, if_false]
  simp [Nat.min_eq_left hdlc]

lemma decoded_data_eq (data : Nat → Nat) (dlc i : Nat) (hdlc : dlc ≤ 8)
    (hdata : ∀ j, j < 8 → data j < 256) (hi : i < dlc) :
    (if i / 2 * 2 < dlc then
       if i % 2 = 0 then (data (2 * (i / 2)) ||| (data (2 * (i / 2) + 1) <<< 8)) % 256
       else ((data (2 * (i / 2)) ||| (data (2 * (i / 2) + 1) <<< 8)) >>> 8) % 256
     else 0) = data i := by
  have hb1 : data (2 * (i / 2)) < 256 := hdata _ (by omega)
  have hb2 : data (2 * (i / 2) + 1) < 256 := hdata _ (by omega)
  have hw : data (2 * (i / 2)) ||| (data (2 * (i / 2) + 1) <<< 8)
      = data (2 * (i / 2)) + 2 ^ 8 * data (2 * (i / 2) + 1) :=
    lor_shl_add _ 8 hb1
  rw [if_pos (by omega)]
  by_cases hp : i % 2 = 0
  · have h2 : 2 * (i / 2) = i := by omega
    rw [if_pos hp, hw, h2]
    have hbi : data i < 256 := hdata _ (by omega)
    omega
  · have h2 : 2 * (i / 2) + 1 = i := by omega
    rw [if_neg hp, hw, Nat.shiftRight_eq_div_pow, h2]
    have hbi : data i < 256 := hdata _ (by omega)
    omega


/-- C1 (amended): for every frame with DLC 0..8 (standard or extended id, data
or remote-request), decoding the register fields produced by encoding preserves
the identifier, the extended flag and the DLC, but the decoded remote-request
flag equals the encoded transmit-direction bit, i.e. the INVERSE of the
original remote-request flag (the claim asserted it round-trips): a data frame
decodes as a remote-request frame with empty payload, and a remote-request
frame decodes as a data frame carrying the originally supplied payload. -/
theorem C1_roundtrip_flips_rtr (ident dlc : Nat) (eff rtr : Bool) (data : Nat → Nat)
    (hid : ident < if eff then 2 ^ 29 else 2 ^ 11)
    (hdlc : dlc ≤ 8) (hdata : ∀ i, i < 8 → data i < 256) :
    (c_can_msg_roundtrip
        ⟨ident + (if eff then CAN_EFF_FLAG else 0) + (if rtr then CAN_RTR_FLAG else 0),
          dlc, data⟩).can_id
      = ident + (if eff then CAN_EFF_FLAG else 0) + (if rtr then 0 else CAN_RTR_FLAG) ∧
    (c_can_msg_roundtrip
        ⟨ident + (if eff then CAN_EFF_FLAG else 0) + (if rtr then CAN_RTR_FLAG else 0),
          dlc, data⟩).can_dlc = dlc ∧
    ∀ i, i < dlc →
      (c_can_msg_roundtrip
          ⟨ident + (if eff then CAN_EFF_FLAG else 0) + (if rtr then CAN_RTR_FLAG else 0),
            dlc, data⟩).data i = if rtr then data i else 0 := by
  cases eff <;> cases rtr <;>
    simp only [Bool.false_eq_true, if_true, if_false, Nat.add_zero,
      CAN_EFF_FLAG, CAN_RTR_FLAG] at hid ⊢
  · rw [c_can_msg_roundtrip, write_std_data ident dlc data hid,
      read_std_data ident dlc _ hid hdlc]
    exact ⟨rfl, rfl, fun i hi => rfl⟩
  · rw [c_can_msg_roundtrip, write_std_rtr ident dlc data hid,
      read_std_rtr ident dlc _ hid hdlc]
    exact ⟨rfl, rfl, fun i hi => decoded_data_eq data dlc i hdlc hdata hi⟩
  · rw [c_can_msg_roundtrip, write_eff_data ident dlc data hid,
      read_eff_data ident dlc _ hid hdlc]
    exact ⟨rfl, rfl, fun i hi => rfl⟩
  · rw [c_can_msg_roundtrip, write_eff_rtr ident dlc data hid,
      read_eff_rtr ident dlc _ hid hdlc]
    exact ⟨rfl, rfl, fun i hi => decoded_data_eq data dlc i hdlc hdata hi⟩

/-- C1 witness: the amended round-trip theorem applied to the concrete standard
remote-request frame with id 0x123, DLC 2 and payload [0xAB, 0xCD]. -/
theorem C1_roundtrip_witness :
    ((0x123:Nat) < if (false:Bool) then 2 ^ 29 else 2 ^ 11) ∧
    ((2:Nat) ≤ 8) ∧
    (∀ i, i < 8 → frameEx.data i < 256) ∧
    ((c_can_msg_roundtrip
        ⟨0x123 + (if (false:Bool) then CAN_EFF_FLAG else 0) +
            (if (true:Bool) then CAN_RTR_FLAG else 0), 2, frameEx.data⟩).can_id
      = 0x123 + (if (false:Bool) then CAN_EFF_FLAG else 0) +
          (if (true:Bool) then 0 else CAN_RTR_FLAG) ∧
    (c_can_msg_roundtrip
        ⟨0x123 + (if (false:Bool) then CAN_EFF_FLAG else 0) +
            (if (true:Bool) then CAN_RTR_FLAG else 0), 2, frameEx.data⟩).can_dlc = 2 ∧
    ∀ i, i < 2 →
      (c_can_msg_roundtrip
          ⟨0x123 + (if (false:Bool) then CAN_EFF_FLAG else 0) +
              (if (true:Bool) then CAN_RTR_FLAG else 0), 2, frameEx.data⟩).data i
        = if (true:Bool) then frameEx.data i else 0) :=
  ⟨by decide, by decide, by decide,
    C1_roundtrip_flips_rtr 0x123 2 false true frameEx.data (by decide) (by decide)
      (by decide)⟩

/-! ## Bit-timing configurator (c_can_set_bittiming) -/

/-- Abstract bit-timing parameters (`struct can_bittime_std`). -/
structure can_bittime_std where
  brp : Nat
  sjw : Nat
  prop_seg : Nat
  phase_seg1 : Nat
  phase_seg2 : Nat

/-- Bit-timing register field constants (rtcan_c_can.c:268-280). -/
def BTR_BRP_MASK : Nat := 0x3F

def BTR_SJW_SHIFT : Nat := 6

def BTR_SJW_MASK : Nat := 0x3 <<< BTR_SJW_SHIFT

def BTR_TSEG1_SHIFT : Nat := 8

def BTR_TSEG1_MASK : Nat := 0xF <<< BTR_TSEG1_SHIFT

def BTR_TSEG2_SHIFT : Nat := 12

def BTR_TSEG2_MASK : Nat := 0x7 <<< BTR_TSEG2_SHIFT

def BRP_EXT_BRPE_MASK : Nat := 0x0F

/-- The register values computed by `c_can_set_bittiming`
(rtcan_c_can.c:724-754): `(reg_btr, reg_brpe)`. -/
def c_can_set_bittiming_regs (bt : can_bittime_std) : Nat × Nat :=
  let ten_bit_brp := bt.brp - 1
  let brp := ten_bit_brp &&& BTR_BRP_MASK
  let brpe := ten_bit_brp >>> 6
  let sjw := bt.sjw - 1
  let tseg1 := bt.prop_seg + bt.phase_seg1 - 1
  let tseg2 := bt.phase_seg2 - 1
  (brp ||| (sjw <<< BTR_SJW_SHIFT) ||| (tseg1 <<< BTR_TSEG1_SHIFT) |||
      (tseg2 <<< BTR_TSEG2_SHIFT),
    brpe &&& BRP_EXT_BRPE_MASK)

/-- Modelled from the spec: unpacking of the bit-timing and prescaler-extension
registers back to the effective (prescaler, sjw, tseg1, tseg2), using the field
masks and shifts defined in the source (BTR_* and BRP_EXT_BRPE_MASK); the
source itself has no decoder, so this is the inverse the claim describes. -/
def btr_unpack (reg_btr reg_brpe : Nat) : Nat × Nat × Nat × Nat :=
  (((reg_btr &&& BTR_BRP_MASK) ||| ((reg_brpe &&& BRP_EXT_BRPE_MASK) <<< 6)) + 1,
    ((reg_btr &&& BTR_SJW_MASK) >>> BTR_SJW_SHIFT) + 1,
    ((reg_btr &&& BTR_TSEG1_MASK) >>> BTR_TSEG1_SHIFT) + 1,
    ((reg_btr &&& BTR_TSEG2_MASK) >>> BTR_TSEG2_SHIFT) + 1)

/-- C6: for all valid bit-timing parameters (sjw 1..4, prop_seg+phase_seg1
2..16, phase_seg2 1..8, prescaler 1..1024) the register packing of
`c_can_set_bittiming` is lossless: unpacking the bit-timing and extension
registers reconstructs the same effective prescaler, sjw, tseg1 and tseg2. -/
theorem C6_bittiming_roundtrip (bt : can_bittime_std)
    (hsjw : 1 ≤ bt.sjw ∧ bt.sjw ≤ 4)
    (hts1 : 2 ≤ bt.prop_seg + bt.phase_seg1 ∧ bt.prop_seg + bt.phase_seg1 ≤ 16)
    (hts2 : 1 ≤ bt.phase_seg2 ∧ bt.phase_seg2 ≤ 8)
    (hbrp : 1 ≤ bt.brp ∧ bt.brp ≤ 1024) :
    btr_unpack (c_can_set_bittiming_regs bt).1 (c_can_set_bittiming_regs bt).2 =
      (bt.brp, bt.sjw, bt.prop_seg + bt.phase_seg1, bt.phase_seg2) := by
  rcases bt with ⟨brp, sjw, prop, ph1, ph2⟩
  dsimp only at hsjw hts1 hts2 hbrp ⊢
  have hA : (brp - 1) &&& BTR_BRP_MASK = (brp - 1) % 64 := by
    rw [BTR_BRP_MASK, (show (0x3F:Nat) = 2 ^ 6 - 1 by norm_num),
      Nat.and_pow_two_sub_one_eq_mod]
  have hE : (brp - 1) >>> 6 = (brp - 1) / 64 := by
    rw [Nat.shiftRight_eq_div_pow]
  have hEm : ((brp - 1) / 64) &&& BRP_EXT_BRPE_MASK = (brp - 1) / 64 := by
    rw [BRP_EXT_BRPE_MASK, (show (0x0F:Nat) = 2 ^ 4 - 1 by norm_num),
      Nat.and_pow_two_sub_one_eq_mod]
    omega
  have hbtr : ((brp - 1) % 64) ||| ((sjw - 1) <<< BTR_SJW_SHIFT) |||
        ((prop + ph1 - 1) <<< BTR_TSEG1_SHIFT) ||| ((ph2 - 1) <<< BTR_TSEG2_SHIFT)
      = (brp - 1) % 64 + 2 ^ 6 * (sjw - 1) + 2 ^ 8 * (prop + ph1 - 1) +
          2 ^ 12 * (ph2 - 1) := by
    rw [BTR_SJW_SHIFT, BTR_TSEG1_SHIFT, BTR_TSEG2_SHIFT,
      lor_shl_add _ 6 (by omega), lor_shl_add _ 8 (by omega),
      lor_shl_add _ 12 (by omega)]
  have hc1 : ((brp - 1) % 64 + 2 ^ 6 * (sjw - 1) + 2 ^ 8 * (prop + ph1 - 1) +
        2 ^ 12 * (ph2 - 1)) &&& BTR_BRP_MASK = (brp - 1) % 64 := by
    rw [BTR_BRP_MASK, (show (0x3F:Nat) = 2 ^ 6 - 1 by norm_num),
      Nat.and_pow_two_sub_one_eq_mod]
    omega
  have hc2 : (((brp - 1) % 64 + 2 ^ 6 * (sjw - 1) + 2 ^ 8 * (prop + ph1 - 1) +
        2 ^ 12 * (ph2 - 1)) &&& BTR_SJW_MASK) >>> BTR_SJW_SHIFT = sjw - 1 := by
    rw [BTR_SJW_MASK, BTR_SJW_SHIFT, and_shl_shr, Nat.shiftRight_eq_div_pow,
      (show (0x3:Nat) = 2 ^ 2 - 1 by norm_num), Nat.and_pow_two_sub_one_eq_mod]
    omega
  have hc3 : (((brp - 1) % 64 + 2 ^ 6 * (sjw - 1) + 2 ^ 8 * (prop + ph1 - 1) +
        2 ^ 12 * (ph2 - 1)) &&& BTR_TSEG1_MASK) >>> BTR_TSEG1_SHIFT
      = prop + ph1 - 1 := by
    rw [BTR_TSEG1_MASK, BTR_TSEG1_SHIFT, and_shl_shr, Nat.shiftRight_eq_div_pow,
      (show (0xF:Nat) = 2 ^ 4 - 1 by norm_num), Nat.and_pow_two_sub_one_eq_mod]
    omega
  have hc4 : (((brp - 1) % 64 + 2 ^ 6 * (sjw - 1) + 2 ^ 8 * (prop + ph1 - 1) +
        2 ^ 12 * (ph2 - 1)) &&& BTR_TSEG2_MASK) >>> BTR_TSEG2_SHIFT = ph2 - 1 := by
    rw [BTR_TSEG2_MASK, BTR_TSEG2_SHIFT, and_shl_shr, Nat.shiftRight_eq_div_pow,
      (show (0x7:Nat) = 2 ^ 3 - 1 by norm_num), Nat.and_pow_two_sub_one_eq_mod]
    omega
  have hbrpfin : ((brp - 1) % 64) ||| (((brp - 1) / 64) <<< 6) = brp - 1 := by
    rw [lor_shl_add _ 6 (by omega)]
    omega
  simp only [c_can_set_bittiming_regs, btr_unpack, hA, hE, hEm, hbtr, hc1, hc2,
    hc3, hc4, hbrpfin, Prod.mk.injEq]
  omega

/-- C6 witness: the round trip at the spec scenario sjw=2, prop+phase1=4+4,
phase2=4, prescaler=10. -/
theorem C6_bittiming_witness :
    ((1 ≤ 2 ∧ 2 ≤ 4) ∧ (2 ≤ 4 + 4 ∧ 4 + 4 ≤ 16) ∧ (1 ≤ 4 ∧ 4 ≤ 8) ∧
      (1 ≤ 10 ∧ 10 ≤ 1024)) ∧
    btr_unpack (c_can_set_bittiming_regs ⟨10, 2, 4, 4, 4⟩).1
        (c_can_set_bittiming_regs ⟨10, 2, 4, 4, 4⟩).2 = (10, 2, 4 + 4, 4) :=
  ⟨⟨by decide, by decide, by decide, by decide⟩,
    C6_bittiming_roundtrip ⟨10, 2, 4, 4, 4⟩ (by decide) (by decide) (by decide)
      (by decide)⟩

/-! ## Interface transactor (c_can_msg_obj_is_busy / c_can_object_get / put) -/

/-- MIN_TIMEOUT_VALUE: the busy-poll retry budget. -/
def MIN_TIMEOUT_VALUE : Nat := 6

/-- IF_COMR_BUSY (bit 15 of the command-request register). -/
def IF_COMR_BUSY : Nat := 0x8000

/-- IF_COMM_WR (write-direction flag in the command mask). -/
def IF_COMM_WR : Nat := 0x80

/-- The busy-wait loop of `c_can_msg_obj_is_busy` (rtcan_c_can.c:461-476) over
a stream `busy` giving the COMREQ busy bit at each successive read; returns
(final countdown value, number of register reads, number of `udelay(1)`
microsecond waits).  The while condition short-circuits on `count = 0`, so no
read happens once the budget is exhausted. -/
def c_can_busy_wait (busy : Nat → Bool) : Nat → Nat → Nat × Nat × Nat
  | 0, _ => (0, 0, 0)
  | count + 1, t =>
    if busy t then
      let r := c_can_busy_wait busy count (t + 1)
      (r.1, r.2.1 + 1, r.2.2 + 1)
    else (count + 1, 1, 0)

/-- `c_can_msg_obj_is_busy`: reports a timeout exactly when the countdown was
exhausted. -/
def c_can_msg_obj_is_busy (busy : Nat → Bool) : Bool :=
  (c_can_busy_wait busy MIN_TIMEOUT_VALUE 0).1 = 0

/-- The caller-visible outcome of a get/put transaction: the two register
writes it performs and whether the timeout was logged.  The C functions return
`void`; there is no error value to escalate, which this record makes explicit. -/
structure IfaceTransaction where
  commsk_write : Nat
  comreq_write : Nat
  timed_out : Bool

/-- `c_can_object_get` (rtcan_c_can.c:478-496): write the transfer mask, write
the object number (triggering the block transfer), poll the busy bit; a timeout
is only logged. -/
def c_can_object_get_tx (busy : Nat → Bool) (objno mask : Nat) : IfaceTransaction :=
  { commsk_write := mask &&& 0xFFFF
    comreq_write := objno &&& 0xFFFF
    timed_out := c_can_msg_obj_is_busy busy }

/-- `c_can_object_put` (rtcan_c_can.c:498-516): identical to get but with the
write-direction flag or-ed into the mask write. -/
def c_can_object_put_tx (busy : Nat → Bool) (objno mask : Nat) : IfaceTransaction :=
  { commsk_write := IF_COMM_WR ||| (mask &&& 0xFFFF)
    comreq_write := objno &&& 0xFFFF
    timed_out := c_can_msg_obj_is_busy busy }

/-- The busy-wait never reads more often than its countdown budget, and delays
one microsecond per retry iteration (so delays never exceed reads). -/
lemma c_can_busy_wait_le (busy : Nat → Bool) :
    ∀ count t, (c_can_busy_wait busy count t).2.1 ≤ count ∧
      (c_can_busy_wait busy count t).2.2 ≤ (c_can_busy_wait busy count t).2.1 := by
  intro count
  induction count with
  | zero => intro t; simp [c_can_busy_wait]
  | succ n ih =>
    intro t
    by_cases hb : busy t
    · have := ih (t + 1)
      simp only [c_can_busy_wait, hb, if_true]
      omega
    · simp [c_can_busy_wait, hb]

/-- C7: every interface-transactor get/put polls the busy bit at most
MIN_TIMEOUT_VALUE = 6 times with one 1-microsecond delay per retry, and —
whatever the busy-bit behaviour, including never clearing — both operations
still perform exactly their two register writes and return normally, the
timeout being recorded only as a logged flag (no fatal error exists to
escalate: the result is total in the busy stream). -/
theorem C7_transactor_bounded_soft (busy : Nat → Bool) (objno mask : Nat) :
    (c_can_busy_wait busy MIN_TIMEOUT_VALUE 0).2.1 ≤ 6 ∧
    (c_can_busy_wait busy MIN_TIMEOUT_VALUE 0).2.2 ≤
      (c_can_busy_wait busy MIN_TIMEOUT_VALUE 0).2.1 ∧
    c_can_object_get_tx busy objno mask =
      ⟨mask &&& 0xFFFF, objno &&& 0xFFFF, c_can_msg_obj_is_busy busy⟩ ∧
    c_can_object_put_tx busy objno mask =
      ⟨IF_COMM_WR ||| (mask &&& 0xFFFF), objno &&& 0xFFFF,
        c_can_msg_obj_is_busy busy⟩ := by
  refine ⟨?_, (c_can_busy_wait_le busy MIN_TIMEOUT_VALUE 0).2, rfl, rfl⟩
  exact (c_can_busy_wait_le busy MIN_TIMEOUT_VALUE 0).1

/-! ## Device state model

The stateful driver routines are embedded as functions on an explicit record
`Dev` holding the registers the core touches, the per-object message-RAM words,
the `c_can_priv` fields, and observable traces (delivered events, interrupt
mask operations, lock operations).  The 32-bit composite registers TXRQST and
INTPND mirror, in bit `n-1`, message object `n`'s TXRQST / INTPND control bit;
reads of those registers are modeled as the corresponding control-word bit. -/

/-- Message-object split constants (rtcan_c_can.c:324-341). -/
def C_CAN_MSG_OBJ_RX_FIRST : Nat := 1

def C_CAN_MSG_OBJ_RX_LAST : Nat := 16

def C_CAN_MSG_OBJ_TX_FIRST : Nat := 17

def C_CAN_MSG_OBJ_TX_LAST : Nat := 32

def C_CAN_MSG_OBJ_RX_SPLIT : Nat := 9

/-- `C_CAN_MSG_RX_LOW_LAST = C_CAN_MSG_OBJ_RX_SPLIT - 1 = 8`. -/
def C_CAN_MSG_RX_LOW_LAST : Nat := 8

/-- `C_CAN_NEXT_MSG_OBJ_MASK = C_CAN_MSG_OBJ_TX_NUM - 1 = 15`. -/
def C_CAN_NEXT_MSG_OBJ_MASK : Nat := 15

/-- Control-register bits. -/
def CONTROL_TEST : Nat := 0x80

def CONTROL_CCE : Nat := 0x40

def CONTROL_EIE : Nat := 0x8

def CONTROL_SIE : Nat := 0x4

def CONTROL_IE : Nat := 0x2

def CONTROL_INIT : Nat := 0x1

/-- Status-register bits. -/
def STATUS_BOFF : Nat := 0x80

def STATUS_EWARN : Nat := 0x40

def STATUS_EPASS : Nat := 0x20

def STATUS_RXOK : Nat := 0x10

def STATUS_TXOK : Nat := 0x8

/-- Test-register bits. -/
def TEST_LBACK : Nat := 0x10

def TEST_SILENT : Nat := 0x8

/-- Last-error-code sentinel. -/
def LEC_UNUSED : Nat := 7

/-- The distinguished status-change interrupt value. -/
def STATUS_INTERRUPT : Nat := 0x8000

/-- Operating states (`can_state_t`). -/
inductive CanState where
  | Stopped
  | ErrorActive
  | ErrorWarning
  | ErrorPassive
  | BusOff
  | Sleeping
deriving DecidableEq

/-- Events handed to `rtcan_rcv` / `rtcan_loopback` (frame deliveries and
synthesized error frames), abstracted to their kind and defining payload. -/
inductive RtcanEvent where
  | errorWarning (txerr rxerr : Nat)
  | errorPassive (txerr rxerr : Nat)
  | busOff
  | busError (lec : Nat)
  | rxOverflow (objno : Nat)
  | rxFrame (objno : Nat)
  | loopback
deriving DecidableEq

/-- Lock operations on the three shared locks. -/
inductive LockOp where
  | devGet
  | devPut
  | recvGet
  | recvPut
  | sockGet
  | sockPut
deriving DecidableEq

/-- Device + driver state: registers, message RAM (control word and 32-bit
arbitration word per object index), `c_can_priv` fields, the transmit
semaphore (`none` = destroyed/not initialized), and observable traces. -/
structure Dev where
  intReg : Nat
  ctrlReg : Nat
  stsReg : Nat
  errCntReg : Nat
  btrReg : Nat
  brpeReg : Nat
  testReg : Nat
  irqstatus : Nat
  currentStatus : Nat
  lastStatus : Nat
  state : CanState
  tx_next : Nat
  tx_echo : Nat
  mctrl : Nat → Nat
  arb : Nat → Nat
  tx_sem : Option Nat
  semUps : Nat
  irqRegistered : Bool
  loopbackPending : Bool
  listenonly : Bool
  loopbackMode : Bool
  bit_time : can_bittime_std
  events : List RtcanEvent
  maskOps : List Bool
  locks : List LockOp

/-- `c_can_enable_all_interrupts` (rtcan_c_can.c:447-459): set or clear
SIE | EIE | IE in the control register (`&= ~0xE` over the 32-bit int is
`&&& 0xFFFFFFF1`); the operation is also recorded in the mask-op trace. -/
def c_can_enable_all_interrupts (d : Dev) (enable : Bool) : Dev :=
  { d with
    ctrlReg :=
      if enable then d.ctrlReg ||| (CONTROL_SIE ||| CONTROL_EIE ||| CONTROL_IE)
      else d.ctrlReg &&& 0xFFFFFFF1
    maskOps := d.maskOps ++ [enable] }

/-- `rtdm_sem_up` on the transmit-admission semaphore, also counted in
`semUps`. -/
def rtdm_sem_up (d : Dev) : Dev :=
  { d with semUps := d.semUps + 1, tx_sem := Option.map (fun n => n + 1) d.tx_sem }

/-- `c_can_inval_msg_object` (rtcan_c_can.c:677-689): zero the arbitration and
control words of one object (put with ARB|CONTROL). -/
def c_can_inval_msg_object (d : Dev) (objno : Nat) : Dev :=
  { d with
    arb := fun i => if i = objno then 0 else d.arb i
    mctrl := fun i => if i = objno then 0 else d.mctrl i }

/-- `c_can_mark_rx_msg_obj` (rtcan_c_can.c:554-564): re-put the control word
with MSGLST and INTPND cleared, NEWDAT preserved
(`~(IF_MCONT_MSGLST | IF_MCONT_INTPND)` = 0xFFFF9FFF over the 32-bit int). -/
def c_can_mark_rx_msg_obj (d : Dev) (ctrl_mask objno : Nat) : Dev :=
  { d with mctrl := fun i => if i = objno then ctrl_mask &&& 0xFFFF9FFF else d.mctrl i }

/-- `c_can_activate_rx_msg_obj` (rtcan_c_can.c:581-591): re-put the control
word with MSGLST, INTPND and NEWDAT cleared
(`~(IF_MCONT_MSGLST | IF_MCONT_INTPND | IF_MCONT_NEWDAT)` = 0xFFFF1FFF). -/
def c_can_activate_rx_msg_obj (d : Dev) (ctrl_mask objno : Nat) : Dev :=
  { d with mctrl := fun i => if i = objno then ctrl_mask &&& 0xFFFF1FFF else d.mctrl i }

/-- `c_can_activate_all_lower_rx_msg_obj` (rtcan_c_can.c:566-579): write the
masked control word to every object `C_CAN_MSG_OBJ_RX_FIRST ..
C_CAN_MSG_RX_LOW_LAST` (1..8); the loop's final state is this pointwise
update. -/
def c_can_activate_all_lower_rx_msg_obj (d : Dev) (ctrl_mask : Nat) : Dev :=
  { d with mctrl := fun i =>
      if C_CAN_MSG_OBJ_RX_FIRST ≤ i ∧ i ≤ C_CAN_MSG_RX_LOW_LAST then
        ctrl_mask &&& 0xFFFF1FFF
      else d.mctrl i }

/-- `c_can_handle_lost_msg_obj` (rtcan_c_can.c:593-614): get the object, write
the shadow control register to `IF_MCONT_CLR_MSGLST` — which is literally 0 —
re-put the CONTROL field (so the object's whole control word becomes 0), and
deliver one receive-overflow control-error event.  The arbitration word is not
touched (the put mask is CONTROL only). -/
def c_can_handle_lost_msg_obj (d : Dev) (objno : Nat) : Dev :=
  { d with
    mctrl := fun i => if i = objno then 0 else d.mctrl i
    events := d.events ++ [RtcanEvent.rxOverflow objno] }

/-- The scan loop of `c_can_do_rx_poll` (rtcan_c_can.c:1018-1074), by fuel
(the scan visits objects `msg_obj, msg_obj+1, ..., C_CAN_MSG_OBJ_RX_LAST`, so
fuel `17 - msg_obj` suffices).  The INTPND composite register is re-read every
iteration; its bit `n-1` is object `n`'s INTPND control bit. -/
def c_can_do_rx_poll_loop : Nat → Dev → Nat → Dev
  | 0, d, _ => d
  | fuel + 1, d, msg_obj =>
    if msg_obj ≤ C_CAN_MSG_OBJ_RX_LAST then
      if d.mctrl msg_obj &&& IF_MCONT_INTPND ≠ 0 then
        let save := d.mctrl msg_obj
        if save &&& IF_MCONT_EOB ≠ 0 then d
        else if save &&& IF_MCONT_MSGLST ≠ 0 then
          c_can_do_rx_poll_loop fuel (c_can_handle_lost_msg_obj d msg_obj) (msg_obj + 1)
        else if save &&& IF_MCONT_NEWDAT = 0 then
          c_can_do_rx_poll_loop fuel d (msg_obj + 1)
        else
          let d' :=
            if msg_obj < C_CAN_MSG_RX_LOW_LAST then
              c_can_mark_rx_msg_obj d save msg_obj
            else if msg_obj > C_CAN_MSG_RX_LOW_LAST then
              c_can_activate_rx_msg_obj d save msg_obj
            else
              c_can_activate_all_lower_rx_msg_obj d save
          c_can_do_rx_poll_loop fuel
            { d' with events := d'.events ++ [RtcanEvent.rxFrame msg_obj] }
            (msg_obj + 1)
      else c_can_do_rx_poll_loop fuel d (msg_obj + 1)
    else d

/-- One receive-drain pass (`c_can_do_rx_poll`). -/
def c_can_do_rx_poll (d : Dev) : Dev :=
  c_can_do_rx_poll_loop 16 d C_CAN_MSG_OBJ_RX_FIRST

/-- `get_tx_next_msg_obj` (rtcan_c_can.c:428-432). -/
def get_tx_next_msg_obj (d : Dev) : Nat :=
  (d.tx_next &&& C_CAN_NEXT_MSG_OBJ_MASK) + C_CAN_MSG_OBJ_TX_FIRST

/-- `get_tx_echo_msg_obj` (rtcan_c_can.c:434-438). -/
def get_tx_echo_msg_obj (d : Dev) : Nat :=
  (d.tx_echo &&& C_CAN_NEXT_MSG_OBJ_MASK) + C_CAN_MSG_OBJ_TX_FIRST

/-- `c_can_start_xmit` (rtcan_c_can.c:705-722): encode the frame into the next
ring slot via `c_can_write_msg_object` (put with IF_COMM_ALL writes both
arbitration and control), then advance `tx_next`. -/
def c_can_start_xmit (d : Dev) (cf : can_frame) : Dev :=
  let msg_obj_no := get_tx_next_msg_obj d
  let regs := c_can_write_msg_object cf
  { d with
    arb := fun i => if i = msg_obj_no then regs.arb1 ||| (regs.arb2 <<< 16) else d.arb i
    mctrl := fun i => if i = msg_obj_no then regs.mctrl else d.mctrl i
    tx_next := d.tx_next + 1 }

/-- The drain loop of `c_can_do_tx` (rtcan_c_can.c:977-987), by fuel (each
non-breaking iteration advances `tx_echo`, so fuel `tx_next - tx_echo`
suffices).  The TXRQST composite register's bit `n-1` is object `n`'s TXRQST
control bit. -/
def c_can_do_tx_loop : Nat → Dev → Dev
  | 0, d => d
  | fuel + 1, d =>
    if d.tx_next - d.tx_echo > 0 then
      let msg_obj_no := get_tx_echo_msg_obj d
      if d.mctrl msg_obj_no &&& IF_MCONT_TXRQST = 0 then
        c_can_do_tx_loop fuel
          { c_can_inval_msg_object d msg_obj_no with tx_echo := d.tx_echo + 1 }
      else rtdm_sem_up d
    else d

/-- One transmit-completion drain pass (`c_can_do_tx`, rtcan_c_can.c:971-994):
the scan, then the wrap/drain bonus release. -/
def c_can_do_tx (d : Dev) : Dev :=
  let d' := c_can_do_tx_loop (d.tx_next - d.tx_echo) d
  if (d'.tx_next &&& C_CAN_NEXT_MSG_OBJ_MASK) ≠ 0 ∨
      (d'.tx_echo &&& C_CAN_NEXT_MSG_OBJ_MASK) = 0 then
    rtdm_sem_up d'
  else d'

/-- `enum c_can_bus_error_types` (the three values the driver passes). -/
inductive c_can_bus_error_types where
  | C_CAN_BUS_OFF
  | C_CAN_ERROR_WARNING
  | C_CAN_ERROR_PASSIVE
deriving DecidableEq

/-- `c_can_handle_state_change` (rtcan_c_can.c:1076-1140): decode the error
counters, set the new state, synthesize the matching control-error / bus-off
event; on bus-off additionally disable all interrupt sources and destroy the
transmit semaphore (releasing/abandoning all waiters) before the event is
delivered. -/
def c_can_handle_state_change (d : Dev) (error_type : c_can_bus_error_types) : Dev :=
  let reg_err_counter := d.errCntReg
  let rxerr := (reg_err_counter &&& 0x7F00) >>> 8
  let txerr := reg_err_counter &&& 0xFF
  match error_type with
  | .C_CAN_ERROR_WARNING =>
      { d with
        state := .ErrorWarning
        events := d.events ++ [RtcanEvent.errorWarning txerr rxerr] }
  | .C_CAN_ERROR_PASSIVE =>
      { d with
        state := .ErrorPassive
        events := d.events ++ [RtcanEvent.errorPassive txerr rxerr] }
  | .C_CAN_BUS_OFF =>
      let d1 := { d with state := .BusOff }
      let d2 := c_can_enable_all_interrupts d1 false
      let d3 := { d2 with tx_sem := none }
      { d3 with events := d3.events ++ [RtcanEvent.busOff] }

/-- `c_can_handle_bus_err` (rtcan_c_can.c:1142-1209): nothing on
LEC_UNUSED/no-error; otherwise rewrite the status register to the LEC_UNUSED
sentinel and deliver one protocol bus-error event. -/
def c_can_handle_bus_err (d : Dev) (lec_type : Nat) : Dev :=
  if lec_type = LEC_UNUSED ∨ lec_type = 0 then d
  else
    let d1 := { d with stsReg := LEC_UNUSED }
    { d1 with events := d1.events ++ [RtcanEvent.busError lec_type] }

/-- `c_can_set_bittiming` acting on the device (rtcan_c_can.c:724-754): write
the packed registers while CCE|INIT is asserted, then restore the saved
control register (so the control register is net unchanged). -/
def c_can_set_bittiming (d : Dev) : Dev :=
  let regs := c_can_set_bittiming_regs d.bit_time
  let ctrl_save := d.ctrlReg
  { d with btrReg := regs.1, brpeReg := regs.2, ctrlReg := ctrl_save }

/-- `c_can_configure_msg_objects` (rtcan_c_can.c:765-780): invalidate all 32
objects, then configure objects 1..15 as receive slots
(`(IF_MCONT_RXIE | IF_MCONT_UMASK) & ~IF_MCONT_EOB`) and object 16 as the
end-of-block receive slot; receive arbitration is id 0 with MSGVAL set
(32-bit word `IF_ARB_MSGVAL <<< 16`).  The sequential loops' final state is
this pointwise update. -/
def c_can_configure_msg_objects (d : Dev) : Dev :=
  { d with
    arb := fun i =>
      if C_CAN_MSG_OBJ_RX_FIRST ≤ i ∧ i ≤ C_CAN_MSG_OBJ_RX_LAST then
        IF_ARB_MSGVAL <<< 16
      else if C_CAN_MSG_OBJ_TX_FIRST ≤ i ∧ i ≤ C_CAN_MSG_OBJ_TX_LAST then 0
      else d.arb i
    mctrl := fun i =>
      if C_CAN_MSG_OBJ_RX_FIRST ≤ i ∧ i < C_CAN_MSG_OBJ_RX_LAST then
        (IF_MCONT_RXIE ||| IF_MCONT_UMASK) &&& 0xFFFFFF7F
      else if i = C_CAN_MSG_OBJ_RX_LAST then
        IF_MCONT_EOB ||| IF_MCONT_RXIE ||| IF_MCONT_UMASK
      else if C_CAN_MSG_OBJ_TX_FIRST ≤ i ∧ i ≤ C_CAN_MSG_OBJ_TX_LAST then 0
      else d.mctrl i }

/-- `c_can_chip_config` (rtcan_c_can.c:788-826): enable auto-retransmit, pick
normal/test mode, configure the message objects, seed the LEC sentinel, apply
bit timing. -/
def c_can_chip_config (d : Dev) : Dev :=
  let d0 := { d with ctrlReg := 0 }
  let d1 :=
    if d0.listenonly ∧ d0.loopbackMode then
      { d0 with
        ctrlReg := CONTROL_EIE ||| CONTROL_SIE ||| CONTROL_IE ||| CONTROL_TEST
        testReg := TEST_LBACK ||| TEST_SILENT }
    else if d0.loopbackMode then
      { d0 with
        ctrlReg := CONTROL_EIE ||| CONTROL_SIE ||| CONTROL_IE ||| CONTROL_TEST
        testReg := TEST_LBACK }
    else if d0.listenonly then
      { d0 with
        ctrlReg := CONTROL_EIE ||| CONTROL_SIE ||| CONTROL_IE ||| CONTROL_TEST
        testReg := TEST_SILENT }
    else { d0 with ctrlReg := CONTROL_EIE ||| CONTROL_SIE ||| CONTROL_IE }
  let d2 := c_can_configure_msg_objects d1
  let d3 := { d2 with stsReg := LEC_UNUSED }
  c_can_set_bittiming d3

/-- `c_can_mode_start` (rtcan_c_can.c:839-905): no-op when already operating;
from Stopped, register the IRQ handler (success path), configure the chip, set
ErrorActive, reset the tx pointers, enable all interrupts, create the
transmit semaphore with capacity 16; from BusOff the same except the semaphore
is created first and the IRQ handler is already registered. -/
def c_can_mode_start (d : Dev) : Dev :=
  match d.state with
  | .ErrorActive => d
  | .ErrorWarning => d
  | .ErrorPassive => d
  | .Stopped =>
      let d0 := { d with irqRegistered := true }
      let d1 := c_can_chip_config d0
      let d2 := { d1 with state := .ErrorActive, tx_next := 0, tx_echo := 0 }
      let d3 := c_can_enable_all_interrupts d2 true
      { d3 with tx_sem := some 16 }
  | .BusOff =>
      let d0 := { d with tx_sem := some 16 }
      let d1 := c_can_chip_config d0
      let d2 := { d1 with state := .ErrorActive, tx_next := 0, tx_echo := 0 }
      c_can_enable_all_interrupts d2 true
  | .Sleeping => d

/-- Acquiring the two delivery locks (dispatch list, then socket set). -/
def grab_recv_locks (d : Dev) : Dev :=
  { d with locks := d.locks ++ [LockOp.recvGet, LockOp.sockGet] }

/-- The status-interrupt branch of `c_can_interrupt` (rtcan_c_can.c:1229-1309):
read and snapshot the status register, clear TXOK/RXOK, run the three rising
edges against the previous snapshot, the two recovery edges, update the
snapshot, decode the last-error code; the delivery locks are taken (once) and
the pass reports handled unconditionally.  Returns the device and the
`recv_lock_free` flag. -/
def c_can_status_branch (d : Dev) : Dev × Bool :=
  let current := d.stsReg
  let d := { d with currentStatus := current }
  let d := if current &&& STATUS_TXOK ≠ 0 then { d with stsReg := current &&& 0xFFFFFFF7 }
           else d
  let d := if current &&& STATUS_RXOK ≠ 0 then { d with stsReg := current &&& 0xFFFFFFEF }
           else d
  let st0 := d
  let (d, lf) :=
    if current &&& STATUS_EWARN ≠ 0 ∧ st0.lastStatus &&& STATUS_EWARN = 0 then
      (grab_recv_locks (c_can_handle_state_change st0 .C_CAN_ERROR_WARNING), false)
    else (st0, true)
  let st1 := d
  let (d, lf) :=
    if current &&& STATUS_EPASS ≠ 0 ∧ st1.lastStatus &&& STATUS_EPASS = 0 then
      let d := c_can_handle_state_change st1 .C_CAN_ERROR_PASSIVE
      if lf then (grab_recv_locks d, false) else (d, lf)
    else (st1, lf)
  let st2 := d
  let (d, lf) :=
    if current &&& STATUS_BOFF ≠ 0 ∧ st2.lastStatus &&& STATUS_BOFF = 0 then
      let d := c_can_handle_state_change st2 .C_CAN_BUS_OFF
      if lf then (grab_recv_locks d, false) else (d, lf)
    else (st2, lf)
  let d := if current &&& STATUS_BOFF = 0 ∧ d.lastStatus &&& STATUS_BOFF ≠ 0 then
             { d with state := CanState.ErrorActive }
           else d
  let d := if current &&& STATUS_EPASS = 0 ∧ d.lastStatus &&& STATUS_EPASS ≠ 0 then
             { d with state := CanState.ErrorActive }
           else d
  let d := { d with lastStatus := current }
  let lec_type := current &&& LEC_UNUSED
  let d := if lec_type ≠ 0 then c_can_handle_bus_err d lec_type else d
  if lf then (grab_recv_locks d, false) else (d, lf)

/-- `c_can_interrupt` (rtcan_c_can.c:1211-1348): read the interrupt status into
`irqstatus`; if zero return not-handled immediately; otherwise disable all
interrupt sources, take the device lock, dispatch on the status value
(status-change / receive range 1..16 / transmit range 17..32 / nothing),
release the delivery locks if taken, release the device lock, re-enable all
interrupt sources, and report handled/not-handled. -/
def c_can_interrupt (d : Dev) : Dev × Bool :=
  let v := d.intReg
  let d := { d with irqstatus := v }
  if v = 0 then (d, false)
  else
    let d := c_can_enable_all_interrupts d false
    let d := { d with locks := d.locks ++ [LockOp.devGet] }
    let step : Dev × Bool × Bool :=
      if v = STATUS_INTERRUPT then
        let r := c_can_status_branch d
        (r.1, r.2, true)
      else if C_CAN_MSG_OBJ_RX_FIRST ≤ v ∧ v ≤ C_CAN_MSG_OBJ_RX_LAST then
        let d := c_can_do_rx_poll d
        (grab_recv_locks d, false, true)
      else if C_CAN_MSG_OBJ_TX_FIRST ≤ v ∧ v ≤ C_CAN_MSG_OBJ_TX_LAST then
        let d := c_can_do_tx d
        if d.loopbackPending then
          let d := grab_recv_locks d
          ({ d with events := d.events ++ [RtcanEvent.loopback] }, false, true)
        else (d, true, true)
      else (d, true, false)
    let d := step.1
    let d := if step.2.1 = false then
               { d with locks := d.locks ++ [LockOp.sockPut, LockOp.recvPut] }
             else d
    let d := { d with locks := d.locks ++ [LockOp.devPut] }
    let d := c_can_enable_all_interrupts d true
    (d, step.2.2)

/-- Bus-off events among a delivery trace. -/
def RtcanEvent.isBusOff : RtcanEvent → Bool
  | .busOff => true
  | _ => false

/-- Number of bus-off events in a trace. -/
def busOffCount (l : List RtcanEvent) : Nat := l.countP RtcanEvent.isBusOff

/-- Number of receive-overflow events for a given slot in a trace. -/
def rxOverflowCount (objno : Nat) (l : List RtcanEvent) : Nat :=
  l.countP (fun e => decide (e = RtcanEvent.rxOverflow objno))

/-- `n &&& 15` is `n % 16`. -/
lemma and_fifteen (n : Nat) : n &&& 15 = n % 16 := by
  rw [(show (15:Nat) = 2 ^ 4 - 1 by norm_num), Nat.and_pow_two_sub_one_eq_mod]

/-! ### Concrete baseline device for counterexamples and witnesses -/

/-- A concrete device state: freshly started controller (ErrorActive, pointers
zero, semaphore full, all message RAM zero). -/
def devEx : Dev :=
  { intReg := 0, ctrlReg := 0, stsReg := 0, errCntReg := 0, btrReg := 0
    brpeReg := 0, testReg := 0, irqstatus := 0, currentStatus := 0
    lastStatus := 0, state := CanState.ErrorActive, tx_next := 0, tx_echo := 0
    mctrl := fun _ => 0, arb := fun _ => 0, tx_sem := some 16, semUps := 0
    irqRegistered := true, loopbackPending := false, listenonly := false
    loopbackMode := false, bit_time := ⟨10, 2, 4, 4, 4⟩, events := []
    maskOps := [], locks := [] }

/-! ### C4: transmit ring slot addressing -/

/-- C4 counterexample: with `tx_next = 0` the frame goes into hardware slot
`(0 mod 16) + 17 = 17`, not `(0 mod 16) + 16 = 16` as the claim states; slot 16
(the last receive slot) is left untouched. -/
theorem C4_counterexample :
    devEx.tx_next = 0 ∧
    get_tx_next_msg_obj devEx = 17 ∧
    get_tx_next_msg_obj devEx ≠ 0 % 16 + 16 ∧
    (c_can_start_xmit devEx frameEx).mctrl 16 = devEx.mctrl 16 ∧
    (c_can_start_xmit devEx frameEx).mctrl 17 = (c_can_write_msg_object frameEx).mctrl := by
  refine ⟨rfl, rfl, by decide, rfl, rfl⟩

/-- C4 (amended): submitting a transmit frame writes it into hardware slot
`(tx_next mod 16) + 17` — the transmit ring occupies slots 17..32, not 16..31 —
and then increments `tx_next` by one. -/
theorem C4_xmit_slot (d : Dev) (cf : can_frame) :
    get_tx_next_msg_obj d = d.tx_next % 16 + 17 ∧
    17 ≤ get_tx_next_msg_obj d ∧ get_tx_next_msg_obj d ≤ 32 ∧
    (c_can_start_xmit d cf).tx_next = d.tx_next + 1 ∧
    (c_can_start_xmit d cf).mctrl (get_tx_next_msg_obj d) =
      (c_can_write_msg_object cf).mctrl ∧
    (c_can_start_xmit d cf).arb (get_tx_next_msg_obj d) =
      (c_can_write_msg_object cf).arb1 ||| ((c_can_write_msg_object cf).arb2 <<< 16) := by
  have h : get_tx_next_msg_obj d = d.tx_next % 16 + 17 := by
    rw [get_tx_next_msg_obj, C_CAN_NEXT_MSG_OBJ_MASK, C_CAN_MSG_OBJ_TX_FIRST,
      and_fifteen]
  refine ⟨h, by omega, by omega, rfl, ?_, ?_⟩
  · simp [c_can_start_xmit]
  · simp [c_can_start_xmit]

/-! ### C3: transmit-completion drain releases -/

/-- The transmit drain loop: `tx_next` is never changed, and the loop releases
exactly one admission unit — at the slot where it stops because TXRQST is still
set — or none if it drains to empty; drained slots release nothing. -/
lemma c_can_do_tx_loop_spec (fuel : Nat) :
    ∀ d : Dev, d.tx_next - d.tx_echo ≤ fuel →
      (c_can_do_tx_loop fuel d).tx_next = d.tx_next ∧
      (c_can_do_tx_loop fuel d).semUps =
        d.semUps + (if (c_can_do_tx_loop fuel d).tx_echo < d.tx_next then 1 else 0) := by
  induction fuel with
  | zero =>
    intro d h
    refine ⟨rfl, ?_⟩
    have hlt : ¬ ((c_can_do_tx_loop 0 d).tx_echo < d.tx_next) := by
      show ¬ (d.tx_echo < d.tx_next)
      omega
    simp [c_can_do_tx_loop, hlt]
    omega
  | succ n ih =>
    intro d h
    by_cases hgap : d.tx_next - d.tx_echo > 0
    · by_cases hbit : d.mctrl (get_tx_echo_msg_obj d) &&& IF_MCONT_TXRQST = 0
      · have hstep :
            c_can_do_tx_loop (n + 1) d =
              c_can_do_tx_loop n
                { c_can_inval_msg_object d (get_tx_echo_msg_obj d) with
                  tx_echo := d.tx_echo + 1 } := by
          simp only [c_can_do_tx_loop]
          rw [if_pos hgap, if_pos hbit]
        have hd' := ih
          { c_can_inval_msg_object d (get_tx_echo_msg_obj d) with
            tx_echo := d.tx_echo + 1 }
          (by
            show d.tx_next - (d.tx_echo + 1) ≤ n
            omega)
        rw [hstep]
        exact ⟨hd'.1, by rw [hd'.2]; rfl⟩
      · have hstep : c_can_do_tx_loop (n + 1) d = rtdm_sem_up d := by
          simp only [c_can_do_tx_loop]
          rw [if_pos hgap, if_neg hbit]
        rw [hstep]
        refine ⟨rfl, ?_⟩
        have hlt : d.tx_echo < d.tx_next := by omega
        simp [rtdm_sem_up, hlt]
    · have h0 : d.tx_next - d.tx_echo = 0 := by omega
      have hstep : c_can_do_tx_loop (n + 1) d = d := by
        simp [c_can_do_tx_loop, h0]
      rw [hstep]
      refine ⟨rfl, ?_⟩
      have hlt : ¬ (d.tx_echo < d.tx_next) := by omega
      simp [hlt]

/-- C3 counterexample: with `tx_next = 3`, `tx_echo = 0` and all three
transmit-request bits clear, the drain invalidates three slots and advances
`tx_echo` by 3, but releases exactly ONE admission unit (the `tx_next` not
slot-aligned bonus), not one per drained slot plus a bonus (= 3) as the claim
computes: the per-slot branch performs no release at all, and the bonus fires
on `tx_next` NOT being slot-aligned, not on it being slot-aligned. -/
theorem C3_counterexample :
    ({ devEx with tx_next := 3 } : Dev).tx_echo = 0 ∧
    ({ devEx with tx_next := 3 } : Dev).semUps = 0 ∧
    (c_can_do_tx { devEx with tx_next := 3 }).tx_echo = 3 ∧
    (c_can_do_tx { devEx with tx_next := 3 }).semUps = 1 ∧
    (1 : Nat) ≠ 3 := by
  refine ⟨rfl, rfl, by decide, by decide, by decide⟩

/-- C3 (amended): in every transmit-completion drain pass the number of
admission units released equals (a) one if the scan stopped at a slot whose
transmit-request bit is still set (i.e. it did not drain the queue empty),
plus (b) one exactly when, after the scan, `tx_next` is NOT slot-aligned to
zero or `tx_echo` IS slot-aligned to zero; slots whose transmit-request bit
cleared and were drained release nothing. -/
theorem C3_tx_release_rule (d : Dev) :
    (c_can_do_tx d).tx_next = d.tx_next ∧
    (c_can_do_tx d).semUps =
      d.semUps +
        (if (c_can_do_tx_loop (d.tx_next - d.tx_echo) d).tx_echo < d.tx_next
          then 1 else 0) +
        (if (d.tx_next &&& C_CAN_NEXT_MSG_OBJ_MASK) ≠ 0 ∨
            ((c_can_do_tx_loop (d.tx_next - d.tx_echo) d).tx_echo &&&
              C_CAN_NEXT_MSG_OBJ_MASK) = 0
          then 1 else 0) := by
  have hspec := c_can_do_tx_loop_spec (d.tx_next - d.tx_echo) d (Nat.le_refl _)
  rw [c_can_do_tx, hspec.1]
  by_cases hbonus : (d.tx_next &&& C_CAN_NEXT_MSG_OBJ_MASK) ≠ 0 ∨
      ((c_can_do_tx_loop (d.tx_next - d.tx_echo) d).tx_echo &&&
        C_CAN_NEXT_MSG_OBJ_MASK) = 0
  · rw [if_pos hbonus, if_pos hbonus]
    refine ⟨hspec.1, ?_⟩
    show (c_can_do_tx_loop (d.tx_next - d.tx_echo) d).semUps + 1 = _
    rw [hspec.2]
  · rw [if_neg hbonus, if_neg hbonus]
    refine ⟨hspec.1, ?_⟩
    rw [hspec.2, Nat.add_zero]

/-! ### C9: zero interrupt status -/

/-- C9 counterexample: the handler does mutate one driver-state field even on a
zero interrupt status — the `irqstatus` snapshot is overwritten with the zero
it just read, before the early return.  Starting with `irqstatus = 5` and an
interrupt-status register reading 0, the handler returns not-handled and
`irqstatus` has changed from 5 to 0. -/
theorem C9_counterexample :
    ({ devEx with irqstatus := 5 } : Dev).intReg = 0 ∧
    ({ devEx with irqstatus := 5 } : Dev).irqstatus = 5 ∧
    (c_can_interrupt { devEx with irqstatus := 5 }).2 = false ∧
    (c_can_interrupt { devEx with irqstatus := 5 }).1.irqstatus = 0 ∧
    (c_can_interrupt { devEx with irqstatus := 5 }).1.irqstatus ≠
      ({ devEx with irqstatus := 5 } : Dev).irqstatus := by
  refine ⟨rfl, rfl, rfl, rfl, by decide⟩

/-- C9 (amended): if the interrupt-status register reads zero, the handler
returns not-handled immediately and mutates nothing except the `irqstatus`
snapshot field, which is overwritten with the zero just read: no register is
written, no lock is taken, no event is delivered, and every other driver-state
field is unchanged (the whole resulting state equals the input with only
`irqstatus := 0`). -/
theorem C9_zero_status_no_mutation (d : Dev) (h : d.intReg = 0) :
    c_can_interrupt d = ({ d with irqstatus := 0 }, false) := by
  simp [c_can_interrupt, h]

/-- C9 witness: the amended theorem at the concrete device with a stale
`irqstatus` of 5. -/
theorem C9_zero_status_witness :
    ({ devEx with irqstatus := 5 } : Dev).intReg = 0 ∧
    c_can_interrupt { devEx with irqstatus := 5 } =
      ({ { devEx with irqstatus := 5 } with irqstatus := 0 }, false) :=
  ⟨rfl, C9_zero_status_no_mutation { devEx with irqstatus := 5 } rfl⟩

/-! ### C10: unhandled nonzero interrupt status -/

/-- C10: for every nonzero interrupt status that is neither the status-change
sentinel 0x8000 nor in the message-object range 1..32, the handler performs no
receive drain, no transmit drain, and no state or event handling, and reports
not-handled — yet it still disables all interrupt sources at entry and
re-enables them at exit (and takes/releases only the device lock): the final
state equals the input with `irqstatus` snapshotted, the control register
disabled-then-re-enabled, and the two traces extended accordingly. -/
theorem C10_unhandled_range (d : Dev) (hv : d.intReg ≠ 0)
    (hs : d.intReg ≠ STATUS_INTERRUPT)
    (hrx : ¬ (C_CAN_MSG_OBJ_RX_FIRST ≤ d.intReg ∧ d.intReg ≤ C_CAN_MSG_OBJ_RX_LAST))
    (htx : ¬ (C_CAN_MSG_OBJ_TX_FIRST ≤ d.intReg ∧ d.intReg ≤ C_CAN_MSG_OBJ_TX_LAST)) :
    (c_can_interrupt d).2 = false ∧
    (c_can_interrupt d).1 =
      { d with
        irqstatus := d.intReg
        ctrlReg := (d.ctrlReg &&& 0xFFFFFFF1) |||
          (CONTROL_SIE ||| CONTROL_EIE ||| CONTROL_IE)
        maskOps := d.maskOps ++ [false, true]
        locks := d.locks ++ [LockOp.devGet, LockOp.devPut] } := by
  constructor <;>
    simp [c_can_interrupt, c_can_enable_all_interrupts, hv, hs, hrx, htx]

/-- C10 witness: the theorem at the concrete out-of-range status value 33. -/
theorem C10_unhandled_witness :
    (({ devEx with intReg := 33 } : Dev).intReg ≠ 0 ∧
      ({ devEx with intReg := 33 } : Dev).intReg ≠ STATUS_INTERRUPT ∧
      ¬ (C_CAN_MSG_OBJ_RX_FIRST ≤ ({ devEx with intReg := 33 } : Dev).intReg ∧
          ({ devEx with intReg := 33 } : Dev).intReg ≤ C_CAN_MSG_OBJ_RX_LAST) ∧
      ¬ (C_CAN_MSG_OBJ_TX_FIRST ≤ ({ devEx with intReg := 33 } : Dev).intReg ∧
          ({ devEx with intReg := 33 } : Dev).intReg ≤ C_CAN_MSG_OBJ_TX_LAST)) ∧
    (c_can_interrupt { devEx with intReg := 33 }).2 = false ∧
    (c_can_interrupt { devEx with intReg := 33 }).1 =
      { { devEx with intReg := 33 } with
        irqstatus := ({ devEx with intReg := 33 } : Dev).intReg
        ctrlReg := (({ devEx with intReg := 33 } : Dev).ctrlReg &&& 0xFFFFFFF1) |||
          (CONTROL_SIE ||| CONTROL_EIE ||| CONTROL_IE)
        maskOps := ({ devEx with intReg := 33 } : Dev).maskOps ++ [false, true]
        locks := ({ devEx with intReg := 33 } : Dev).locks ++
          [LockOp.devGet, LockOp.devPut] } :=
  ⟨⟨by decide, by decide, by decide, by decide⟩,
    C10_unhandled_range { devEx with intReg := 33 } (by decide) (by decide)
      (by decide) (by decide)⟩

/-! ### C5: bus-off handling and restart -/

/-- C5: on a rising edge of the bus-off status bit (set in the current status
snapshot, clear in the previous one — the guard under which `c_can_interrupt`
invokes `c_can_handle_state_change` with C_CAN_BUS_OFF), the handler
synthesizes exactly one bus-off event, disables all interrupt sources
(clears SIE|EIE|IE), sets the state to BusOff, and destroys the
transmit-admission semaphore, releasing/abandoning all waiters; and a
subsequent `c_can_mode_start` from BusOff produces the same configuration
(state ErrorActive, tx_next = tx_echo = 0, semaphore re-created at full
capacity 16, identical control register with all interrupt-enable bits set) as
a start from Stopped. -/
theorem C5_busoff_edge_and_restart (d : Dev)
    (hcur : d.currentStatus &&& STATUS_BOFF ≠ 0)
    (hlast : d.lastStatus &&& STATUS_BOFF = 0) :
    busOffCount (c_can_handle_state_change d .C_CAN_BUS_OFF).events
        = busOffCount d.events + 1 ∧
    (c_can_handle_state_change d .C_CAN_BUS_OFF).state = CanState.BusOff ∧
    (c_can_handle_state_change d .C_CAN_BUS_OFF).ctrlReg = d.ctrlReg &&& 0xFFFFFFF1 ∧
    (c_can_handle_state_change d .C_CAN_BUS_OFF).tx_sem = none ∧
    (c_can_mode_start { d with state := CanState.BusOff }).state = CanState.ErrorActive ∧
    (c_can_mode_start { d with state := CanState.Stopped }).state = CanState.ErrorActive ∧
    (c_can_mode_start { d with state := CanState.BusOff }).tx_next = 0 ∧
    (c_can_mode_start { d with state := CanState.BusOff }).tx_echo = 0 ∧
    (c_can_mode_start { d with state := CanState.Stopped }).tx_next = 0 ∧
    (c_can_mode_start { d with state := CanState.Stopped }).tx_echo = 0 ∧
    (c_can_mode_start { d with state := CanState.BusOff }).tx_sem = some 16 ∧
    (c_can_mode_start { d with state := CanState.Stopped }).tx_sem = some 16 ∧
    (c_can_mode_start { d with state := CanState.BusOff }).ctrlReg =
      (c_can_mode_start { d with state := CanState.Stopped }).ctrlReg ∧
    (c_can_mode_start { d with state := CanState.BusOff }).ctrlReg &&&
      (CONTROL_SIE ||| CONTROL_EIE ||| CONTROL_IE) =
      (CONTROL_SIE ||| CONTROL_EIE ||| CONTROL_IE) := by
  refine ⟨?_, rfl, rfl, rfl, ?_⟩
  · simp [c_can_handle_state_change, c_can_enable_all_interrupts, busOffCount,
      List.countP_append, List.countP_cons, RtcanEvent.isBusOff]
  · rcases hl : d.listenonly <;> rcases hb : d.loopbackMode <;>
      simp [c_can_mode_start, c_can_chip_config, c_can_configure_msg_objects,
        c_can_set_bittiming, c_can_enable_all_interrupts, hl, hb] <;>
      decide

/-- C5 witness: the theorem at a concrete device showing the rising edge
(current status has BOFF set, previous snapshot clear). -/
theorem C5_busoff_witness :
    (({ devEx with currentStatus := 0x80 } : Dev).currentStatus &&&
        STATUS_BOFF ≠ 0 ∧
      ({ devEx with currentStatus := 0x80 } : Dev).lastStatus &&&
        STATUS_BOFF = 0) ∧
    busOffCount
        (c_can_handle_state_change { devEx with currentStatus := 0x80 }
          .C_CAN_BUS_OFF).events
      = busOffCount ({ devEx with currentStatus := 0x80 } : Dev).events + 1 ∧
    (c_can_handle_state_change { devEx with currentStatus := 0x80 }
        .C_CAN_BUS_OFF).state = CanState.BusOff ∧
    (c_can_handle_state_change { devEx with currentStatus := 0x80 }
        .C_CAN_BUS_OFF).tx_sem = none :=
  have h := C5_busoff_edge_and_restart { devEx with currentStatus := 0x80 }
    (by decide) (by decide)
  ⟨⟨by decide, by decide⟩, h.1, h.2.1, h.2.2.2.1⟩

/-! ### Receive-pool scan: step equations -/

/-- Scan step: past the last receive object the loop stops. -/
lemma rx_step_out (fuel : Nat) (d : Dev) (obj : Nat) (h1 : ¬ obj ≤ 16) :
    c_can_do_rx_poll_loop (fuel + 1) d obj = d := by
  simp only [c_can_do_rx_poll_loop, C_CAN_MSG_OBJ_RX_LAST, C_CAN_MSG_RX_LOW_LAST]
  rw [if_neg h1]

/-- Scan step: a slot without interrupt-pending is skipped. -/
lemma rx_step_idle (fuel : Nat) (d : Dev) (obj : Nat) (h1 : obj ≤ 16)
    (h2 : d.mctrl obj &&& IF_MCONT_INTPND = 0) :
    c_can_do_rx_poll_loop (fuel + 1) d obj = c_can_do_rx_poll_loop fuel d (obj + 1) := by
  simp only [c_can_do_rx_poll_loop, C_CAN_MSG_OBJ_RX_LAST, C_CAN_MSG_RX_LOW_LAST]
  rw [if_pos h1, if_neg (by simp [h2])]

/-- Scan step: a pending slot with end-of-block terminates the pass. -/
lemma rx_step_eob (fuel : Nat) (d : Dev) (obj : Nat) (h1 : obj ≤ 16)
    (h2 : d.mctrl obj &&& IF_MCONT_INTPND ≠ 0)
    (h3 : d.mctrl obj &&& IF_MCONT_EOB ≠ 0) :
    c_can_do_rx_poll_loop (fuel + 1) d obj = d := by
  simp only [c_can_do_rx_poll_loop, C_CAN_MSG_OBJ_RX_LAST, C_CAN_MSG_RX_LOW_LAST]
  rw [if_pos h1, if_pos h2, if_pos h3]

/-- Scan step: a pending slot with message-lost is recovered via
`c_can_handle_lost_msg_obj` and the scan continues. -/
lemma rx_step_lost (fuel : Nat) (d : Dev) (obj : Nat) (h1 : obj ≤ 16)
    (h2 : d.mctrl obj &&& IF_MCONT_INTPND ≠ 0)
    (h3 : d.mctrl obj &&& IF_MCONT_EOB = 0)
    (h4 : d.mctrl obj &&& IF_MCONT_MSGLST ≠ 0) :
    c_can_do_rx_poll_loop (fuel + 1) d obj =
      c_can_do_rx_poll_loop fuel (c_can_handle_lost_msg_obj d obj) (obj + 1) := by
  simp only [c_can_do_rx_poll_loop, C_CAN_MSG_OBJ_RX_LAST, C_CAN_MSG_RX_LOW_LAST]
  rw [if_pos h1, if_pos h2, if_neg (by simp [h3]), if_pos h4]

/-- Scan step: a pending slot with no new data is skipped. -/
lemma rx_step_nodata (fuel : Nat) (d : Dev) (obj : Nat) (h1 : obj ≤ 16)
    (h2 : d.mctrl obj &&& IF_MCONT_INTPND ≠ 0)
    (h3 : d.mctrl obj &&& IF_MCONT_EOB = 0)
    (h4 : d.mctrl obj &&& IF_MCONT_MSGLST = 0)
    (h5 : d.mctrl obj &&& IF_MCONT_NEWDAT = 0) :
    c_can_do_rx_poll_loop (fuel + 1) d obj = c_can_do_rx_poll_loop fuel d (obj + 1) := by
  simp only [c_can_do_rx_poll_loop, C_CAN_MSG_OBJ_RX_LAST, C_CAN_MSG_RX_LOW_LAST]
  rw [if_pos h1, if_pos h2, if_neg (by simp [h3]), if_neg (by simp [h4]), if_pos h5]

/-- Scan step: delivery from a slot strictly below the boundary marks the slot
(NEWDAT preserved) and continues. -/
lemma rx_step_mark (fuel : Nat) (d : Dev) (obj : Nat) (h1 : obj ≤ 16)
    (h2 : d.mctrl obj &&& IF_MCONT_INTPND ≠ 0)
    (h3 : d.mctrl obj &&& IF_MCONT_EOB = 0)
    (h4 : d.mctrl obj &&& IF_MCONT_MSGLST = 0)
    (h5 : d.mctrl obj &&& IF_MCONT_NEWDAT ≠ 0)
    (h6 : obj < 8) :
    c_can_do_rx_poll_loop (fuel + 1) d obj =
      c_can_do_rx_poll_loop fuel
        { c_can_mark_rx_msg_obj d (d.mctrl obj) obj with
          events := d.events ++ [RtcanEvent.rxFrame obj] } (obj + 1) := by
  simp only [c_can_do_rx_poll_loop, C_CAN_MSG_OBJ_RX_LAST, C_CAN_MSG_RX_LOW_LAST]
  rw [if_pos h1, if_pos h2, if_neg (by simp [h3]), if_neg (by simp [h4]),
    if_neg (by simp [h5]), if_pos h6]
  rfl

/-- Scan step: delivery from a slot strictly above the boundary reactivates
that slot alone (NEWDAT cleared) and continues. -/
lemma rx_step_activate (fuel : Nat) (d : Dev) (obj : Nat) (h1 : obj ≤ 16)
    (h2 : d.mctrl obj &&& IF_MCONT_INTPND ≠ 0)
    (h3 : d.mctrl obj &&& IF_MCONT_EOB = 0)
    (h4 : d.mctrl obj &&& IF_MCONT_MSGLST = 0)
    (h5 : d.mctrl obj &&& IF_MCONT_NEWDAT ≠ 0)
    (h6 : 8 < obj) :
    c_can_do_rx_poll_loop (fuel + 1) d obj =
      c_can_do_rx_poll_loop fuel
        { c_can_activate_rx_msg_obj d (d.mctrl obj) obj with
          events := d.events ++ [RtcanEvent.rxFrame obj] } (obj + 1) := by
  simp only [c_can_do_rx_poll_loop, C_CAN_MSG_OBJ_RX_LAST, C_CAN_MSG_RX_LOW_LAST]
  rw [if_pos h1, if_pos h2, if_neg (by simp [h3]), if_neg (by simp [h4]),
    if_neg (by simp [h5]), if_neg (by omega), if_pos h6]
  rfl

/-- Scan step: delivery from the boundary slot 8 itself reactivates all lower
slots (NEWDAT cleared on 1..8) and continues. -/
lemma rx_step_all_lower (fuel : Nat) (d : Dev)
    (h2 : d.mctrl 8 &&& IF_MCONT_INTPND ≠ 0)
    (h3 : d.mctrl 8 &&& IF_MCONT_EOB = 0)
    (h4 : d.mctrl 8 &&& IF_MCONT_MSGLST = 0)
    (h5 : d.mctrl 8 &&& IF_MCONT_NEWDAT ≠ 0) :
    c_can_do_rx_poll_loop (fuel + 1) d 8 =
      c_can_do_rx_poll_loop fuel
        { c_can_activate_all_lower_rx_msg_obj d (d.mctrl 8) with
          events := d.events ++ [RtcanEvent.rxFrame 8] } 9 := by
  simp only [c_can_do_rx_poll_loop, C_CAN_MSG_OBJ_RX_LAST, C_CAN_MSG_RX_LOW_LAST]
  rw [if_pos (by omega), if_pos h2, if_neg (by simp [h3]), if_neg (by simp [h4]),
    if_neg (by simp [h5]), if_neg (by omega), if_neg (by omega)]
  rfl

/-- Locality of the scan above the boundary: once the scan position is ≥ 9,
a slot `j` that the scan has already passed (`j < obj`) or that is not
interrupt-pending is never written again. -/
lemma rx_loop_frame (fuel : Nat) :
    ∀ (d : Dev) (obj j : Nat), 9 ≤ obj →
      (j < obj ∨ d.mctrl j &&& IF_MCONT_INTPND = 0) →
      (c_can_do_rx_poll_loop fuel d obj).mctrl j = d.mctrl j := by
  induction fuel with
  | zero => intro d obj j _ _; rfl
  | succ n ih =>
    intro d obj j hobj hj
    by_cases h1 : obj ≤ 16
    · by_cases h2 : d.mctrl obj &&& IF_MCONT_INTPND = 0
      · rw [rx_step_idle n d obj h1 h2]
        refine ih d (obj + 1) j (by omega) ?_
        rcases hj with h | h
        · exact Or.inl (by omega)
        · exact Or.inr h
      · have hjne : j ≠ obj := by
          rcases hj with h | h
          · omega
          · intro he
            rw [he] at h
            exact h2 h
        by_cases h3 : d.mctrl obj &&& IF_MCONT_EOB = 0
        · by_cases h4 : d.mctrl obj &&& IF_MCONT_MSGLST = 0
          · by_cases h5 : d.mctrl obj &&& IF_MCONT_NEWDAT = 0
            · rw [rx_step_nodata n d obj h1 h2 h3 h4 h5]
              refine ih d (obj + 1) j (by omega) ?_
              rcases hj with h | h
              · exact Or.inl (by omega)
              · exact Or.inr h
            · rw [rx_step_activate n d obj h1 h2 h3 h4 h5 (by omega)]
              have hd' :
                  ({ c_can_activate_rx_msg_obj d (d.mctrl obj) obj with
                    events := d.events ++ [RtcanEvent.rxFrame obj] } : Dev).mctrl j
                    = d.mctrl j := by
                simp [c_can_activate_rx_msg_obj, hjne]
              rw [ih _ (obj + 1) j (by omega) ?_, hd']
              rcases hj with h | h
              · exact Or.inl (by omega)
              · refine Or.inr ?_
                rw [hd']
                exact h
          · rw [rx_step_lost n d obj h1 h2 h3 h4]
            have hd' : (c_can_handle_lost_msg_obj d obj).mctrl j = d.mctrl j := by
              simp [c_can_handle_lost_msg_obj, hjne]
            rw [ih _ (obj + 1) j (by omega) ?_, hd']
            rcases hj with h | h
            · exact Or.inl (by omega)
            · refine Or.inr ?_
              rw [hd']
              exact h
        · rw [rx_step_eob n d obj h1 h2 h3]
    · rw [rx_step_out n d obj h1]

/-- The receive-drain scan never writes any arbitration word: slots are
re-activated or recovered via CONTROL-only puts, never invalidated. -/
lemma rx_loop_arb (fuel : Nat) :
    ∀ (d : Dev) (obj : Nat), (c_can_do_rx_poll_loop fuel d obj).arb = d.arb := by
  induction fuel with
  | zero => intro d obj; rfl
  | succ n ih =>
    intro d obj
    by_cases h1 : obj ≤ 16
    · by_cases h2 : d.mctrl obj &&& IF_MCONT_INTPND = 0
      · rw [rx_step_idle n d obj h1 h2]
        exact ih d (obj + 1)
      · by_cases h3 : d.mctrl obj &&& IF_MCONT_EOB = 0
        · by_cases h4 : d.mctrl obj &&& IF_MCONT_MSGLST = 0
          · by_cases h5 : d.mctrl obj &&& IF_MCONT_NEWDAT = 0
            · rw [rx_step_nodata n d obj h1 h2 h3 h4 h5]
              exact ih d (obj + 1)
            · rcases Nat.lt_trichotomy obj 8 with ho | ho | ho
              · rw [rx_step_mark n d obj h1 h2 h3 h4 h5 ho, ih _ _]
                rfl
              · subst ho
                rw [rx_step_all_lower n d h2 h3 h4 h5, ih _ _]
                rfl
              · rw [rx_step_activate n d obj h1 h2 h3 h4 h5 ho, ih _ _]
                rfl
          · rw [rx_step_lost n d obj h1 h2 h3 h4, ih _ _]
            rfl
        · rw [rx_step_eob n d obj h1 h2 h3]
    · rw [rx_step_out n d obj h1]

/-- Clearing three control bits via the 0xFFFF1FFF mask clears NEWDAT. -/
lemma masked_newdat_zero (x : Nat) : (x &&& 0xFFFF1FFF) &&& IF_MCONT_NEWDAT = 0 := by
  rw [IF_MCONT_NEWDAT, Nat.and_assoc,
    (show (0xFFFF1FFF:Nat) &&& 0x8000 = 0 by decide), Nat.and_zero]

/-- The scan from a position at or below the boundary slot 8: provided slot 8
is pending with new data (and neither end-of-block nor message-lost), and no
pending slot still ahead of the scan below the boundary carries end-of-block,
the pass ends with NEWDAT clear on all of slots 1..8, and leaves every
non-pending slot above the boundary untouched. -/
lemma rx_loop_low (fuel : Nat) :
    ∀ (d : Dev) (obj : Nat), 1 ≤ obj → obj ≤ 8 → fuel + obj = 17 →
      d.mctrl 8 &&& IF_MCONT_INTPND ≠ 0 →
      d.mctrl 8 &&& IF_MCONT_EOB = 0 →
      d.mctrl 8 &&& IF_MCONT_MSGLST = 0 →
      d.mctrl 8 &&& IF_MCONT_NEWDAT ≠ 0 →
      (∀ i, obj ≤ i → i ≤ 7 → d.mctrl i &&& IF_MCONT_INTPND ≠ 0 →
        d.mctrl i &&& IF_MCONT_EOB = 0) →
      (∀ i, 1 ≤ i → i ≤ 8 →
        (c_can_do_rx_poll_loop fuel d obj).mctrl i &&& IF_MCONT_NEWDAT = 0) ∧
      (∀ j, 9 ≤ j → d.mctrl j &&& IF_MCONT_INTPND = 0 →
        (c_can_do_rx_poll_loop fuel d obj).mctrl j = d.mctrl j) := by
  induction fuel with
  | zero =>
    intro d obj h1 h8 hf
    omega
  | succ n ih =>
    intro d obj ho1 ho8 hfuel h8p h8e h8m h8n hlow
    by_cases hobj8 : obj = 8
    · subst hobj8
      rw [rx_step_all_lower n d h8p h8e h8m h8n]
      have hDlow : ∀ i, 1 ≤ i → i ≤ 8 →
          ({ c_can_activate_all_lower_rx_msg_obj d (d.mctrl 8) with
            events := d.events ++ [RtcanEvent.rxFrame 8] } : Dev).mctrl i &&&
            IF_MCONT_NEWDAT = 0 := by
        intro i hi1 hi8
        have hcond : C_CAN_MSG_OBJ_RX_FIRST ≤ i ∧ i ≤ C_CAN_MSG_RX_LOW_LAST := by
          constructor
          · show 1 ≤ i
            omega
          · show i ≤ 8
            omega
        show (c_can_activate_all_lower_rx_msg_obj d (d.mctrl 8)).mctrl i &&&
          IF_MCONT_NEWDAT = 0
        rw [c_can_activate_all_lower_rx_msg_obj]
        simp only [if_pos hcond]
        exact masked_newdat_zero _
      have hDhigh : ∀ j, 9 ≤ j →
          ({ c_can_activate_all_lower_rx_msg_obj d (d.mctrl 8) with
            events := d.events ++ [RtcanEvent.rxFrame 8] } : Dev).mctrl j
            = d.mctrl j := by
        intro j hj
        have hcond : ¬ (C_CAN_MSG_OBJ_RX_FIRST ≤ j ∧ j ≤ C_CAN_MSG_RX_LOW_LAST) := by
          intro hc
          have : j ≤ 8 := hc.2
          omega
        show (c_can_activate_all_lower_rx_msg_obj d (d.mctrl 8)).mctrl j = d.mctrl j
        rw [c_can_activate_all_lower_rx_msg_obj]
        simp only [if_neg hcond]
      constructor
      · intro i hi1 hi8
        rw [rx_loop_frame n _ 9 i (by omega) (Or.inl (by omega))]
        exact hDlow i hi1 hi8
      · intro j hj hjp
        rw [rx_loop_frame n _ 9 j (by omega) (Or.inr (by rw [hDhigh j hj]; exact hjp)),
          hDhigh j hj]
    · have hobj7 : obj ≤ 7 := by omega
      by_cases h2 : d.mctrl obj &&& IF_MCONT_INTPND = 0
      · rw [rx_step_idle n d obj (by omega) h2]
        exact ih d (obj + 1) (by omega) (by omega) (by omega) h8p h8e h8m h8n
          (fun i hi1 hi7 => hlow i (by omega) hi7)
      · have heob := hlow obj (Nat.le_refl obj) hobj7 h2
        by_cases h4 : d.mctrl obj &&& IF_MCONT_MSGLST = 0
        · by_cases h5 : d.mctrl obj &&& IF_MCONT_NEWDAT = 0
          · rw [rx_step_nodata n d obj (by omega) h2 heob h4 h5]
            exact ih d (obj + 1) (by omega) (by omega) (by omega) h8p h8e h8m h8n
              (fun i hi1 hi7 => hlow i (by omega) hi7)
          · rw [rx_step_mark n d obj (by omega) h2 heob h4 h5 (by omega)]
            have hDne : ∀ x, x ≠ obj →
                ({ c_can_mark_rx_msg_obj d (d.mctrl obj) obj with
                  events := d.events ++ [RtcanEvent.rxFrame obj] } : Dev).mctrl x
                  = d.mctrl x := by
              intro x hx
              show (c_can_mark_rx_msg_obj d (d.mctrl obj) obj).mctrl x = d.mctrl x
              rw [c_can_mark_rx_msg_obj]
              simp only [if_neg hx]
            have hres := ih
              { c_can_mark_rx_msg_obj d (d.mctrl obj) obj with
                events := d.events ++ [RtcanEvent.rxFrame obj] }
              (obj + 1) (by omega) (by omega) (by omega)
              (by rw [hDne 8 (by omega)]; exact h8p)
              (by rw [hDne 8 (by omega)]; exact h8e)
              (by rw [hDne 8 (by omega)]; exact h8m)
              (by rw [hDne 8 (by omega)]; exact h8n)
              (fun i hi1 hi7 => by
                rw [hDne i (by omega)]
                exact fun hp => hlow i (by omega) hi7 hp)
            refine ⟨hres.1, ?_⟩
            intro j hj hjp
            rw [hres.2 j hj (by rw [hDne j (by omega)]; exact hjp),
              hDne j (by omega)]
        · rw [rx_step_lost n d obj (by omega) h2 heob h4]
          have hDne : ∀ x, x ≠ obj →
              (c_can_handle_lost_msg_obj d obj).mctrl x = d.mctrl x := by
            intro x hx
            rw [c_can_handle_lost_msg_obj]
            simp only [if_neg hx]
          have hres := ih (c_can_handle_lost_msg_obj d obj)
            (obj + 1) (by omega) (by omega) (by omega)
            (by rw [hDne 8 (by omega)]; exact h8p)
            (by rw [hDne 8 (by omega)]; exact h8e)
            (by rw [hDne 8 (by omega)]; exact h8m)
            (by rw [hDne 8 (by omega)]; exact h8n)
            (fun i hi1 hi7 => by
              rw [hDne i (by omega)]
              exact fun hp => hlow i (by omega) hi7 hp)
          refine ⟨hres.1, ?_⟩
          intro j hj hjp
          rw [hres.2 j hj (by rw [hDne j (by omega)]; exact hjp),
            hDne j (by omega)]

/-! ### C2: boundary reactivation semantics -/

/-- A receive pool with the (actual) boundary slot 9 pending with new data and
slot 1 holding new data without interrupt-pending. -/
def devRx : Dev :=
  { devEx with
    mctrl := fun i => if i = 9 then 0xB400 else if i = 1 then 0x9400 else 0 }

/-- C2 counterexample: with slot 9 pending and new-data set (and slot 1 merely
holding new-data from an earlier in-order hold), one receive-drain pass clears
new-data on slot 9 ONLY: slot 9 is above the split boundary — which is slot 8
(C_CAN_MSG_RX_LOW_LAST), not slot 9 — so it is reactivated individually, and
slot 1's new-data bit remains set, contradicting the claim that a pass with
slot 9 pending clears new-data on all of slots 1 through 9. -/
theorem C2_counterexample :
    (devRx.mctrl 9 &&& IF_MCONT_INTPND ≠ 0) ∧
    (devRx.mctrl 9 &&& IF_MCONT_NEWDAT ≠ 0) ∧
    ((c_can_do_rx_poll devRx).mctrl 9 &&& IF_MCONT_NEWDAT = 0) ∧
    ((c_can_do_rx_poll devRx).mctrl 1 &&& IF_MCONT_NEWDAT ≠ 0) := by
  refine ⟨by decide, by decide, by decide, by decide⟩

/-- C2 (amended): the split-boundary slot whose processing reactivates all
lower slots is slot 8 (`C_CAN_MSG_RX_LOW_LAST`), not slot 9.  For every
receive-pool state in which slot 8 is pending with new-data set (and is
neither end-of-block nor message-lost), and in which no pending slot below the
boundary carries end-of-block (so the scan reaches slot 8), one receive-drain
pass clears the new-data bit on slots 1 through 8 — regardless of which slots
individually had new-data set beforehand — and leaves every slot 9..16 that is
not interrupt-pending completely unchanged; pending slots above the boundary
are reactivated individually. -/
theorem C2_boundary_reactivation (d : Dev)
    (h8p : d.mctrl 8 &&& IF_MCONT_INTPND ≠ 0)
    (h8e : d.mctrl 8 &&& IF_MCONT_EOB = 0)
    (h8m : d.mctrl 8 &&& IF_MCONT_MSGLST = 0)
    (h8n : d.mctrl 8 &&& IF_MCONT_NEWDAT ≠ 0)
    (hlow : ∀ i, 1 ≤ i → i ≤ 7 → d.mctrl i &&& IF_MCONT_INTPND ≠ 0 →
      d.mctrl i &&& IF_MCONT_EOB = 0) :
    (∀ i, 1 ≤ i → i ≤ 8 →
      (c_can_do_rx_poll d).mctrl i &&& IF_MCONT_NEWDAT = 0) ∧
    (∀ j, 9 ≤ j → d.mctrl j &&& IF_MCONT_INTPND = 0 →
      (c_can_do_rx_poll d).mctrl j = d.mctrl j) := by
  have h := rx_loop_low 16 d 1 (by omega) (by omega) (by omega) h8p h8e h8m h8n
    (fun i hi1 hi7 => hlow i hi1 hi7)
  exact h

/-- A receive pool exercising the amended C2: slot 8 pending with new data,
slot 3 holding new data without pending, slot 10 idle with new data. -/
def devRx8 : Dev :=
  { devEx with
    mctrl := fun i =>
      if i = 8 then 0xB400 else if i = 3 then 0x9400
      else if i = 10 then 0x9400 else 0 }

/-- C2 witness: the amended theorem at the concrete pool `devRx8`; the drain
clears new-data on slots 1..8 and leaves non-pending slot 10 untouched. -/
theorem C2_boundary_witness :
    ((devRx8.mctrl 8 &&& IF_MCONT_INTPND ≠ 0) ∧
      (devRx8.mctrl 8 &&& IF_MCONT_EOB = 0) ∧
      (devRx8.mctrl 8 &&& IF_MCONT_MSGLST = 0) ∧
      (devRx8.mctrl 8 &&& IF_MCONT_NEWDAT ≠ 0)) ∧
    (∀ i, 1 ≤ i → i ≤ 8 →
      (c_can_do_rx_poll devRx8).mctrl i &&& IF_MCONT_NEWDAT = 0) ∧
    (∀ j, 9 ≤ j → devRx8.mctrl j &&& IF_MCONT_INTPND = 0 →
      (c_can_do_rx_poll devRx8).mctrl j = devRx8.mctrl j) :=
  ⟨⟨by decide, by decide, by decide, by decide⟩,
    C2_boundary_reactivation devRx8 (by decide) (by decide) (by decide) (by decide)
      (fun i h1 h7 => by interval_cases i <;> decide)⟩

/-- Overflow-event count across an appended singleton. -/
lemma rxOverflowCount_append_one (k : Nat) (l : List RtcanEvent) (e : RtcanEvent) :
    rxOverflowCount k (l ++ [e]) =
      rxOverflowCount k l + (if e = RtcanEvent.rxOverflow k then 1 else 0) := by
  simp [rxOverflowCount, List.countP_append, List.countP_cons]

/-- After the scan has passed a slot `k` whose control word is zero, the rest
of the pass keeps it zero and emits no further overflow event for it —
provided no later boundary reactivation can overwrite it (`k` at or above the
boundary, or the scan already past the boundary, or slot 8 unable to take the
new-data branch). -/
lemma rx_loop_post (fuel : Nat) :
    ∀ (d : Dev) (obj k : Nat), k < obj →
      d.mctrl k = 0 →
      (8 ≤ k ∨ 8 < obj ∨
        ¬(d.mctrl 8 &&& IF_MCONT_INTPND ≠ 0 ∧ d.mctrl 8 &&& IF_MCONT_EOB = 0 ∧
          d.mctrl 8 &&& IF_MCONT_MSGLST = 0 ∧ d.mctrl 8 &&& IF_MCONT_NEWDAT ≠ 0)) →
      (c_can_do_rx_poll_loop fuel d obj).mctrl k = 0 ∧
      rxOverflowCount k (c_can_do_rx_poll_loop fuel d obj).events =
        rxOverflowCount k d.events := by
  induction fuel with
  | zero => intro d obj k _ hz _; exact ⟨hz, rfl⟩
  | succ n ih =>
    intro d obj k hk hz hfire
    by_cases h1 : obj ≤ 16
    · by_cases h2 : d.mctrl obj &&& IF_MCONT_INTPND = 0
      · rw [rx_step_idle n d obj h1 h2]
        refine ih d (obj + 1) k (by omega) hz ?_
        rcases hfire with h | h | h
        · exact Or.inl h
        · exact Or.inr (Or.inl (by omega))
        · exact Or.inr (Or.inr h)
      · have hkobj : k ≠ obj := by omega
        by_cases h3 : d.mctrl obj &&& IF_MCONT_EOB = 0
        · by_cases h4 : d.mctrl obj &&& IF_MCONT_MSGLST = 0
          · by_cases h5 : d.mctrl obj &&& IF_MCONT_NEWDAT = 0
            · rw [rx_step_nodata n d obj h1 h2 h3 h4 h5]
              refine ih d (obj + 1) k (by omega) hz ?_
              rcases hfire with h | h | h
              · exact Or.inl h
              · exact Or.inr (Or.inl (by omega))
              · exact Or.inr (Or.inr h)
            · rcases Nat.lt_trichotomy obj 8 with ho | ho | ho
              · rw [rx_step_mark n d obj h1 h2 h3 h4 h5 ho]
                have hm : ∀ x, x ≠ obj →
                    ({ c_can_mark_rx_msg_obj d (d.mctrl obj) obj with
                      events := d.events ++ [RtcanEvent.rxFrame obj] } : Dev).mctrl x
                      = d.mctrl x := by
                  intro x hx
                  show (c_can_mark_rx_msg_obj d (d.mctrl obj) obj).mctrl x = d.mctrl x
                  rw [c_can_mark_rx_msg_obj]
                  simp only [if_neg hx]
                have hres := ih
                  { c_can_mark_rx_msg_obj d (d.mctrl obj) obj with
                    events := d.events ++ [RtcanEvent.rxFrame obj] }
                  (obj + 1) k (by omega) (by rw [hm k hkobj]; exact hz) ?_
                · refine ⟨hres.1, ?_⟩
                  rw [hres.2]
                  show rxOverflowCount k (d.events ++ [RtcanEvent.rxFrame obj]) = _
                  rw [rxOverflowCount_append_one]
                  simp
                · rcases hfire with h | h | h
                  · exact Or.inl h
                  · exact Or.inr (Or.inl (by omega))
                  · refine Or.inr (Or.inr ?_)
                    rw [hm 8 (by omega)]
                    exact h
              · subst ho
                rcases hfire with h | h | h
                · omega
                · omega
                · exact absurd ⟨h2, h3, h4, h5⟩ h
              · rw [rx_step_activate n d obj h1 h2 h3 h4 h5 ho]
                have hm : ∀ x, x ≠ obj →
                    ({ c_can_activate_rx_msg_obj d (d.mctrl obj) obj with
                      events := d.events ++ [RtcanEvent.rxFrame obj] } : Dev).mctrl x
                      = d.mctrl x := by
                  intro x hx
                  show (c_can_activate_rx_msg_obj d (d.mctrl obj) obj).mctrl x = d.mctrl x
                  rw [c_can_activate_rx_msg_obj]
                  simp only [if_neg hx]
                have hres := ih
                  { c_can_activate_rx_msg_obj d (d.mctrl obj) obj with
                    events := d.events ++ [RtcanEvent.rxFrame obj] }
                  (obj + 1) k (by omega) (by rw [hm k hkobj]; exact hz)
                  (Or.inr (Or.inl (by omega)))
                refine ⟨hres.1, ?_⟩
                rw [hres.2]
                show rxOverflowCount k (d.events ++ [RtcanEvent.rxFrame obj]) = _
                rw [rxOverflowCount_append_one]
                simp
          · rw [rx_step_lost n d obj h1 h2 h3 h4]
            have hm : ∀ x, x ≠ obj →
                (c_can_handle_lost_msg_obj d obj).mctrl x = d.mctrl x := by
              intro x hx
              rw [c_can_handle_lost_msg_obj]
              simp only [if_neg hx]
            have hres := ih (c_can_handle_lost_msg_obj d obj)
              (obj + 1) k (by omega) (by rw [hm k hkobj]; exact hz) ?_
            · refine ⟨hres.1, ?_⟩
              rw [hres.2]
              show rxOverflowCount k (d.events ++ [RtcanEvent.rxOverflow obj]) = _
              rw [rxOverflowCount_append_one]
              have : ¬ (RtcanEvent.rxOverflow obj = RtcanEvent.rxOverflow k) := by
                simp
                omega
              simp [this]
            · rcases hfire with h | h | h
              · exact Or.inl h
              · exact Or.inr (Or.inl (by omega))
              · by_cases ho8 : obj = 8
                · exact Or.inr (Or.inl (by omega))
                · refine Or.inr (Or.inr ?_)
                  rw [hm 8 (fun he => ho8 he.symm)]
                  exact h
        · rw [rx_step_eob n d obj h1 h2 h3]
          exact ⟨hz, rfl⟩
    · rw [rx_step_out n d obj h1]
      exact ⟨hz, rfl⟩

/-- The scan from any position at or below a slot `k` that is pending with
message-lost set (and not end-of-block): provided every pending slot still
ahead but below `k` is free of end-of-block (so the scan reaches `k`), and no
boundary reactivation can rewrite `k` afterwards, the pass zeroes slot `k`'s
control word and emits exactly one receive-overflow event for `k`. -/
lemma rx_loop_lost_main (fuel : Nat) :
    ∀ (d : Dev) (obj k : Nat), 1 ≤ obj → obj ≤ k → k ≤ 16 → fuel + obj = 17 →
      d.mctrl k &&& IF_MCONT_INTPND ≠ 0 →
      d.mctrl k &&& IF_MCONT_EOB = 0 →
      d.mctrl k &&& IF_MCONT_MSGLST ≠ 0 →
      (∀ i, obj ≤ i → i < k → d.mctrl i &&& IF_MCONT_INTPND ≠ 0 →
        d.mctrl i &&& IF_MCONT_EOB = 0) →
      (8 ≤ k ∨
        ¬(d.mctrl 8 &&& IF_MCONT_INTPND ≠ 0 ∧ d.mctrl 8 &&& IF_MCONT_EOB = 0 ∧
          d.mctrl 8 &&& IF_MCONT_MSGLST = 0 ∧ d.mctrl 8 &&& IF_MCONT_NEWDAT ≠ 0)) →
      (c_can_do_rx_poll_loop fuel d obj).mctrl k = 0 ∧
      rxOverflowCount k (c_can_do_rx_poll_loop fuel d obj).events =
        rxOverflowCount k d.events + 1 := by
  induction fuel with
  | zero =>
    intro d obj k h1 hok hk16 hf
    omega
  | succ n ih =>
    intro d obj k ho1 hok hk16 hfuel hkp hke hkm hreach hfire
    by_cases hobjk : obj = k
    · subst hobjk
      rw [rx_step_lost n d obj (by omega) hkp hke hkm]
      have hz : (c_can_handle_lost_msg_obj d obj).mctrl obj = 0 := by
        rw [c_can_handle_lost_msg_obj]
        simp
      have hm : ∀ x, x ≠ obj →
          (c_can_handle_lost_msg_obj d obj).mctrl x = d.mctrl x := by
        intro x hx
        rw [c_can_handle_lost_msg_obj]
        simp only [if_neg hx]
      have hpost := rx_loop_post n (c_can_handle_lost_msg_obj d obj)
        (obj + 1) obj (by omega) hz ?_
      · refine ⟨hpost.1, ?_⟩
        rw [hpost.2]
        show rxOverflowCount obj (d.events ++ [RtcanEvent.rxOverflow obj]) = _
        rw [rxOverflowCount_append_one]
        simp
      · by_cases ho8 : 8 ≤ obj
        · exact Or.inl ho8
        · rcases hfire with h | h
          · omega
          · refine Or.inr (Or.inr ?_)
            rw [hm 8 (by omega)]
            exact h
    · have hoklt : obj < k := by omega
      by_cases h2 : d.mctrl obj &&& IF_MCONT_INTPND = 0
      · rw [rx_step_idle n d obj (by omega) h2]
        exact ih d (obj + 1) k (by omega) (by omega) hk16 (by omega) hkp hke hkm
          (fun i hi hik => hreach i (by omega) hik) hfire
      · have heob := hreach obj (Nat.le_refl obj) hoklt h2
        by_cases h4 : d.mctrl obj &&& IF_MCONT_MSGLST = 0
        · by_cases h5 : d.mctrl obj &&& IF_MCONT_NEWDAT = 0
          · rw [rx_step_nodata n d obj (by omega) h2 heob h4 h5]
            exact ih d (obj + 1) k (by omega) (by omega) hk16 (by omega) hkp hke hkm
              (fun i hi hik => hreach i (by omega) hik) hfire
          · rcases Nat.lt_trichotomy obj 8 with ho | ho | ho
            · rw [rx_step_mark n d obj (by omega) h2 heob h4 h5 ho]
              have hm : ∀ x, x ≠ obj →
                  ({ c_can_mark_rx_msg_obj d (d.mctrl obj) obj with
                    events := d.events ++ [RtcanEvent.rxFrame obj] } : Dev).mctrl x
                    = d.mctrl x := by
                intro x hx
                show (c_can_mark_rx_msg_obj d (d.mctrl obj) obj).mctrl x = d.mctrl x
                rw [c_can_mark_rx_msg_obj]
                simp only [if_neg hx]
              have hres := ih
                { c_can_mark_rx_msg_obj d (d.mctrl obj) obj with
                  events := d.events ++ [RtcanEvent.rxFrame obj] }
                (obj + 1) k (by omega) (by omega) hk16 (by omega)
                (by rw [hm k (by omega)]; exact hkp)
                (by rw [hm k (by omega)]; exact hke)
                (by rw [hm k (by omega)]; exact hkm)
                (fun i hi hik => by
                  rw [hm i (by omega)]
                  exact fun hp => hreach i (by omega) hik hp) ?_
              · refine ⟨hres.1, ?_⟩
                rw [hres.2]
                show rxOverflowCount k (d.events ++ [RtcanEvent.rxFrame obj]) + 1 = _
                rw [rxOverflowCount_append_one]
                simp
              · rcases hfire with h | h
                · exact Or.inl h
                · refine Or.inr ?_
                  rw [hm 8 (by omega)]
                  exact h
            · subst ho
              rw [rx_step_all_lower n d h2 heob h4 h5]
              have hmhigh : ∀ x, 9 ≤ x →
                  ({ c_can_activate_all_lower_rx_msg_obj d (d.mctrl 8) with
                    events := d.events ++ [RtcanEvent.rxFrame 8] } : Dev).mctrl x
                    = d.mctrl x := by
                intro x hx
                have hcond : ¬ (C_CAN_MSG_OBJ_RX_FIRST ≤ x ∧ x ≤ C_CAN_MSG_RX_LOW_LAST) := by
                  intro hc
                  have : x ≤ 8 := hc.2
                  omega
                show (c_can_activate_all_lower_rx_msg_obj d (d.mctrl 8)).mctrl x = d.mctrl x
                rw [c_can_activate_all_lower_rx_msg_obj]
                simp only [if_neg hcond]
              have hres := ih
                { c_can_activate_all_lower_rx_msg_obj d (d.mctrl 8) with
                  events := d.events ++ [RtcanEvent.rxFrame 8] }
                9 k (by omega) (by omega) hk16 (by omega)
                (by rw [hmhigh k (by omega)]; exact hkp)
                (by rw [hmhigh k (by omega)]; exact hke)
                (by rw [hmhigh k (by omega)]; exact hkm)
                (fun i hi hik => by
                  rw [hmhigh i (by omega)]
                  exact fun hp => hreach i (by omega) hik hp)
                (Or.inl (by omega))
              refine ⟨hres.1, ?_⟩
              rw [hres.2]
              show rxOverflowCount k (d.events ++ [RtcanEvent.rxFrame 8]) + 1 = _
              rw [rxOverflowCount_append_one]
              simp
            · rw [rx_step_activate n d obj (by omega) h2 heob h4 h5 ho]
              have hm : ∀ x, x ≠ obj →
                  ({ c_can_activate_rx_msg_obj d (d.mctrl obj) obj with
                    events := d.events ++ [RtcanEvent.rxFrame obj] } : Dev).mctrl x
                    = d.mctrl x := by
                intro x hx
                show (c_can_activate_rx_msg_obj d (d.mctrl obj) obj).mctrl x = d.mctrl x
                rw [c_can_activate_rx_msg_obj]
                simp only [if_neg hx]
              have hres := ih
                { c_can_activate_rx_msg_obj d (d.mctrl obj) obj with
                  events := d.events ++ [RtcanEvent.rxFrame obj] }
                (obj + 1) k (by omega) (by omega) hk16 (by omega)
                (by rw [hm k (by omega)]; exact hkp)
                (by rw [hm k (by omega)]; exact hke)
                (by rw [hm k (by omega)]; exact hkm)
                (fun i hi hik => by
                  rw [hm i (by omega)]
                  exact fun hp => hreach i (by omega) hik hp)
                (Or.inl (by omega))
              refine ⟨hres.1, ?_⟩
              rw [hres.2]
              show rxOverflowCount k (d.events ++ [RtcanEvent.rxFrame obj]) + 1 = _
              rw [rxOverflowCount_append_one]
              simp
        · rw [rx_step_lost n d obj (by omega) h2 heob h4]
          have hm : ∀ x, x ≠ obj →
              (c_can_handle_lost_msg_obj d obj).mctrl x = d.mctrl x := by
            intro x hx
            rw [c_can_handle_lost_msg_obj]
            simp only [if_neg hx]
          have hres := ih (c_can_handle_lost_msg_obj d obj)
            (obj + 1) k (by omega) (by omega) hk16 (by omega)
            (by rw [hm k (by omega)]; exact hkp)
            (by rw [hm k (by omega)]; exact hke)
            (by rw [hm k (by omega)]; exact hkm)
            (fun i hi hik => by
              rw [hm i (by omega)]
              exact fun hp => hreach i (by omega) hik hp) ?_
          · refine ⟨hres.1, ?_⟩
            rw [hres.2]
            show rxOverflowCount k (d.events ++ [RtcanEvent.rxOverflow obj]) + 1 = _
            rw [rxOverflowCount_append_one]
            have hne : ¬ (RtcanEvent.rxOverflow obj = RtcanEvent.rxOverflow k) := by
              simp
              omega
            simp [hne]
          · rcases hfire with h | h
            · exact Or.inl h
            · by_cases ho8 : obj = 8
              · exact Or.inl (by omega)
              · refine Or.inr ?_
                rw [hm 8 (fun he => ho8 he.symm)]
                exact h

/-- Receive pool in which slot 5 is pending with message-lost set and is
configured for reception (RXIE and UMASK set); every other slot is quiet. -/
def devRx5 : Dev :=
  { devEx with mctrl := fun i => if i = 5 then 0x7400 else 0 }

/-- Counterexample to C8.  Slot 5 signals message-lost while configured with
receive-interrupt-enable and use-mask.  The drain does emit exactly one
receive-overflow event for slot 5, but the recovery writes the shadow control
register to `IF_MCONT_CLR_MSGLST`, which is the literal value 0: the re-put
control word is 0, so the slot's RXIE and UMASK configuration bits are wiped
along with the message-lost bit — the final word is 0, not the claimed
"original word with only message-lost cleared" (which would be 0x3400). -/
theorem C8_counterexample :
    rxOverflowCount 5 (c_can_do_rx_poll devRx5).events = 1 ∧
    devRx5.mctrl 5 &&& IF_MCONT_RXIE ≠ 0 ∧
    devRx5.mctrl 5 &&& IF_MCONT_UMASK ≠ 0 ∧
    (c_can_do_rx_poll devRx5).mctrl 5 = 0 ∧
    (c_can_do_rx_poll devRx5).mctrl 5 ≠
      devRx5.mctrl 5 &&& (0xFFFF - IF_MCONT_MSGLST) := by
  refine ⟨?_, by decide, by decide, ?_, ?_⟩ <;> decide

/-- C8 (amended).  For every receive slot `k` whose message-lost bit is set
when the drain pass encounters it (slot pending, not end-of-block, reachable:
no earlier pending slot is end-of-block, and no boundary reactivation
overwrites `k` afterwards), the pass emits exactly one receive-overflow event
for that slot and leaves the arbitration words of every slot untouched (the
recovery puts the CONTROL field only, so the slot is not invalidated) — but
it zeroes the slot's entire control word (`IF_MCONT_CLR_MSGLST` is 0), so the
receive-interrupt-enable and use-mask configuration bits are lost rather than
preserved, and the slot raises no further receive interrupts until the
controller is reconfigured. -/
theorem C8_lost_slot (d : Dev) (k : Nat) (hk1 : 1 ≤ k) (hk16 : k ≤ 16)
    (hkp : d.mctrl k &&& IF_MCONT_INTPND ≠ 0)
    (hke : d.mctrl k &&& IF_MCONT_EOB = 0)
    (hkm : d.mctrl k &&& IF_MCONT_MSGLST ≠ 0)
    (hreach : ∀ i, 1 ≤ i → i < k → d.mctrl i &&& IF_MCONT_INTPND ≠ 0 →
      d.mctrl i &&& IF_MCONT_EOB = 0)
    (hfire : 8 ≤ k ∨
      ¬(d.mctrl 8 &&& IF_MCONT_INTPND ≠ 0 ∧ d.mctrl 8 &&& IF_MCONT_EOB = 0 ∧
        d.mctrl 8 &&& IF_MCONT_MSGLST = 0 ∧ d.mctrl 8 &&& IF_MCONT_NEWDAT ≠ 0)) :
    rxOverflowCount k (c_can_do_rx_poll d).events =
      rxOverflowCount k d.events + 1 ∧
    (c_can_do_rx_poll d).mctrl k = 0 ∧
    (c_can_do_rx_poll d).arb = d.arb := by
  have hmain := rx_loop_lost_main 16 d 1 k (Nat.le_refl 1) hk1 hk16 rfl hkp hke hkm
    (fun i hi hik => hreach i hi hik) hfire
  exact ⟨hmain.2, hmain.1, rx_loop_arb 16 d 1⟩

/-- Witness for C8 at the concrete pool `devRx5` (slot `k = 5`). -/
theorem C8_lost_witness :
    rxOverflowCount 5 (c_can_do_rx_poll devRx5).events =
      rxOverflowCount 5 devRx5.events + 1 ∧
    (c_can_do_rx_poll devRx5).mctrl 5 = 0 ∧
    (c_can_do_rx_poll devRx5).arb = devRx5.arb :=
  C8_lost_slot devRx5 5 (by decide) (by decide) (by decide) (by decide)
    (by decide) (fun i h1 h5 => by interval_cases i <;> decide)
    (Or.inr (by decide))
